import Mathlib

/-!
Verification of the Calorie Tracker goal / metabolic calculator logic.

This file shallowly embeds the domain logic of
`custom_components/calorie_tracker/calorie_tracker_user.py` and
`custom_components/calorie_tracker/storage.py`:

* Python `float` arithmetic is modelled as exact rational arithmetic (`ℚ`);
  decimal literals (`0.453592`, `21.6`, ...) denote the same rational values.
* Python dicts keyed by ISO date strings are modelled as association lists
  `List (String × α)` with one entry per key; `dmSet` overwrites in place
  (as a dict assignment does) and `dmGet` is `dict.get`.
* Python string comparison (code-point lexicographic) is modelled by the
  executable `strLe`; `sorted(...)` on date strings is `List.insertionSort`
  over that order.
* `dt_util.parse_datetime(s).date().isoformat()` on a well-formed ISO input is
  the date part of `s` (the text before any "T"), modelled by `dateOnly`.
* Stateful methods are modelled by explicit state passing: mutators return the
  new state (paired with their Python return value where they have one).
-/

/-- Python `int(x)` on a float/real value: truncation toward zero. -/
def pyInt (x : ℚ) : ℤ :=
  if 0 ≤ x then ⌊x⌋ else -⌊-x⌋

/-- Python `round(x)` (no digits argument): round half to even, returning an int. -/
def pyRoundInt (x : ℚ) : ℤ :=
  let f := ⌊x⌋
  let r := x - (f : ℚ)
  if r < 1/2 then f
  else if 1/2 < r then f + 1
  else if f % 2 = 0 then f else f + 1

/-- Python `round(x, 1)`: round to one decimal digit, ties to even. -/
def round1 (x : ℚ) : ℚ :=
  (pyRoundInt (10 * x) : ℚ) / 10

/-- Code-point comparison of char lists: Python string `<=`. -/
def charListLe : List Char → List Char → Bool
  | [], _ => true
  | _ :: _, [] => false
  | c :: cs, d :: ds =>
    if c.toNat = d.toNat then charListLe cs ds else decide (c.toNat < d.toNat)

/-- Python string comparison `a <= b` (code-point lexicographic). -/
def strLe (a b : String) : Bool :=
  charListLe a.data b.data

/-- `charPrefix p l` decides whether `p` is an initial segment of `l`. -/
def charPrefix : List Char → List Char → Bool
  | [], _ => true
  | _ :: _, [] => false
  | a :: as_, b :: bs => a.toNat = b.toNat && charPrefix as_ bs

/-- Python `s.startswith(pattern)`. -/
def strStartsWith (s pattern : String) : Bool :=
  charPrefix pattern.data s.data

/-- Python's substring test `needle in haystack` (for nonempty needles):
some suffix of `haystack` starts with `needle`. -/
def pyInStr (needle haystack : String) : Bool :=
  go needle.data haystack.data
where
  go (n : List Char) : List Char → Bool
    | [] => charPrefix n []
    | c :: cs => charPrefix n (c :: cs) || go n cs

/-- Split a char list at every occurrence of the separator char
(Python `s.split(sep)` for a one-char separator). -/
def splitOnChar (sep : Char) : List Char → List (List Char)
  | [] => [[]]
  | c :: cs =>
    let r := splitOnChar sep cs
    if c.toNat = sep.toNat then [] :: r
    else
      match r with
      | h :: t => (c :: h) :: t
      | [] => [[c]]

/-- The date part of a well-formed ISO date or timestamp string: the text
before the first "T".  Models `date_str.split("T")[0]` and, on well-formed
input, `dt_util.parse_datetime(date_str).date().isoformat()`. -/
def dateOnly (s : String) : String :=
  String.mk (s.data.takeWhile (fun c => c.toNat ≠ 'T'.toNat))

/-- Decimal digits to a number (`int("2024")` on well-formed input). -/
def digitsToNat (l : List Char) : ℕ :=
  l.foldl (fun n c => 10 * n + (c.toNat - 48)) 0

/-- The year of a well-formed ISO date or timestamp string, as an integer.
Models `dt_util.parse_datetime(date_str).date().year`. -/
def parseYear (s : String) : ℤ :=
  (digitsToNat (s.data.takeWhile (fun c => c.toNat ≠ '-'.toNat)) : ℤ)

/-- `dict.get(k)` on an association list: value of the first entry with key `k`. -/
def dmGet {α : Type} (m : List (String × α)) (k : String) : Option α :=
  match m.find? (fun p => p.1 = k) with
  | some p => some p.2
  | none => none

/-- `dict[k] = v` on an association list: overwrite the entry for `k` in place
if present (keeping its position, as a Python dict does), else append. -/
def dmSet {α : Type} : List (String × α) → String → α → List (String × α)
  | [], k, v => [(k, v)]
  | (k', v') :: rest, k, v =>
    if k' = k then (k, v) :: rest else (k', v') :: dmSet rest k v

/-- The key order used to model Python `sorted` on date-keyed entries. -/
def keyLe {α : Type} (a b : String × α) : Prop :=
  strLe a.1 b.1 = true

instance {α : Type} : DecidableRel (keyLe (α := α)) :=
  fun a b => instDecidableEqBool (strLe a.1 b.1) true

/-- Sort an association list by key, ascending (Python `sorted` on items). -/
def sortByKey {α : Type} (l : List (String × α)) : List (String × α) :=
  List.insertionSort keyLe l

/-- A logged food or exercise entry.  Python stores these as untyped dicts;
the fields below are the ones the tracked code reads or writes, with `none`
standing for an absent key (or a stored `None`). -/
structure Entry where
  id : String
  timestamp : String
  food_item : Option String := none
  exercise_type : Option String := none
  duration_minutes : Option ℤ := none
  calories : Option ℤ := none
  calories_burned : Option ℤ := none
  c : Option ℚ := none
  p : Option ℚ := none
  f : Option ℚ := none
  a : Option ℚ := none
deriving DecidableEq, Repr

/-- A stored goal: `{"goal_type": ..., "goal_value": ...}`. -/
structure Goal where
  goal_type : String
  goal_value : ℚ
deriving DecidableEq, Repr

/-- A goal as returned by `CalorieStorageManager.get_goal`: the stored goal
plus the `start_date` key attached by the lookup. -/
structure GoalRes where
  goal_type : String
  goal_value : ℚ
  start_date : String
deriving DecidableEq, Repr

/-- The in-memory state of `CalorieStorageManager`. -/
structure CalorieStorageManager where
  food_entries : List Entry
  exercise_entries : List Entry
  weights : List (String × ℚ)
  body_fat_pcts : List (String × ℚ)
  goals : List (String × Goal)
deriving DecidableEq, Repr

namespace CalorieStorageManager

/-- `CalorieStorageManager.get_weight`. -/
def get_weight (s : CalorieStorageManager) (date_str : String) : Option ℚ :=
  dmGet s.weights date_str

/-- `CalorieStorageManager.set_weight` (state-passing). -/
def set_weight (s : CalorieStorageManager) (date_str : String) (weight : ℚ) :
    CalorieStorageManager :=
  { s with weights := dmSet s.weights date_str weight }

/-- `CalorieStorageManager.get_all_weights`. -/
def get_all_weights (s : CalorieStorageManager) : List (String × ℚ) :=
  s.weights

/-- `CalorieStorageManager.get_body_fat_pct`. -/
def get_body_fat_pct (s : CalorieStorageManager) (date_str : String) : Option ℚ :=
  dmGet s.body_fat_pcts date_str

/-- `CalorieStorageManager.set_body_fat_pct` (state-passing). -/
def set_body_fat_pct (s : CalorieStorageManager) (date_str : String)
    (body_fat_pct : ℚ) : CalorieStorageManager :=
  { s with body_fat_pcts := dmSet s.body_fat_pcts date_str body_fat_pct }

/-- `CalorieStorageManager.get_all_body_fat_pcts`. -/
def get_all_body_fat_pcts (s : CalorieStorageManager) : List (String × ℚ) :=
  s.body_fat_pcts

/-- `CalorieStorageManager.add_goal` (state-passing; the `async_save` call
only persists to disk and has no in-memory effect). -/
def add_goal (s : CalorieStorageManager) (date : String) (goal_type : String)
    (goal_value : ℚ) : CalorieStorageManager :=
  { s with goals := dmSet s.goals date ⟨goal_type, goal_value⟩ }

/-- The `result`/`result_date` scan in `CalorieStorageManager.get_goal`:
walk the sorted date list, remembering the last date `≤ date`, and stop at
the first date beyond it. -/
def goalDateScan (date : String) : List String → Option String → Option String
  | [], acc => acc
  | k :: rest, acc =>
    if strLe k date then goalDateScan date rest (some k) else acc

/-- `CalorieStorageManager.get_goal`: exact match, else the most recent goal
on or before `date`, else the earliest goal; `none` when no goals exist. -/
def get_goal (s : CalorieStorageManager) (date : String) : Option GoalRes :=
  if s.goals = [] then none
  else
    match dmGet s.goals date with
    | some g => some ⟨g.goal_type, g.goal_value, date⟩
    | none =>
      let goal_dates := (sortByKey s.goals).map Prod.fst
      match goalDateScan date goal_dates none with
      | some result_date =>
        match dmGet s.goals result_date with
        | some g => some ⟨g.goal_type, g.goal_value, result_date⟩
        | none => none
      | none =>
        match goal_dates with
        | first_date :: _ =>
          match dmGet s.goals first_date with
          | some g => some ⟨g.goal_type, g.goal_value, first_date⟩
          | none => none
        | [] => none

/-- `CalorieStorageManager.get_daily_macros`: sum the optional macro grams of
the food entries of one date and round each total to the nearest integer. -/
def get_daily_macros (s : CalorieStorageManager) (date_str : String) :
    List (String × ℤ) :=
  let totals := s.food_entries.foldl
    (fun (t : ℚ × ℚ × ℚ × ℚ) e =>
      if strStartsWith e.timestamp date_str then
        (t.1 + (e.c.getD 0), t.2.1 + (e.p.getD 0), t.2.2.1 + (e.f.getD 0),
         t.2.2.2 + (e.a.getD 0))
      else t)
    (0, 0, 0, 0)
  [("c", pyRoundInt totals.1), ("p", pyRoundInt totals.2.1),
   ("f", pyRoundInt totals.2.2.1), ("a", pyRoundInt totals.2.2.2)]

/-- The deletion loop of `delete_entry`: drop the first entry with the given
id, `none` if no entry matches. -/
def removeFirst : List Entry → String → Option (List Entry)
  | [], _ => none
  | e :: rest, entry_id =>
    if e.id = entry_id then some rest
    else (removeFirst rest entry_id).map (e :: ·)

/-- `CalorieStorageManager.delete_entry` (state-passing): returns the Python
return value paired with the new state. -/
def delete_entry (s : CalorieStorageManager) (entry_type : String)
    (entry_id : String) : Bool × CalorieStorageManager :=
  if entry_type = "food" then
    match removeFirst s.food_entries entry_id with
    | some entries => (true, { s with food_entries := entries })
    | none => (false, s)
  else if entry_type = "exercise" then
    match removeFirst s.exercise_entries entry_id with
    | some entries => (true, { s with exercise_entries := entries })
    | none => (false, s)
  else (false, s)

/-- The update loop of `update_entry`: replace the first entry with the given
id, `none` if no entry matches. -/
def replaceFirst : List Entry → String → Entry → Option (List Entry)
  | [], _, _ => none
  | e :: rest, entry_id, new_entry =>
    if e.id = entry_id then some (new_entry :: rest)
    else (replaceFirst rest entry_id new_entry).map (e :: ·)

/-- `CalorieStorageManager.update_entry` (state-passing): returns the Python
return value paired with the new state. -/
def update_entry (s : CalorieStorageManager) (entry_type : String)
    (entry_id : String) (new_entry : Entry) : Bool × CalorieStorageManager :=
  if entry_type = "food" then
    match replaceFirst s.food_entries entry_id new_entry with
    | some entries => (true, { s with food_entries := entries })
    | none => (false, s)
  else if entry_type = "exercise" then
    match replaceFirst s.exercise_entries entry_id new_entry with
    | some entries => (true, { s with exercise_entries := entries })
    | none => (false, s)
  else (false, s)

end CalorieStorageManager

/-- The scan in `CalorieTrackerUser.get_weight` / `get_body_fat_pct`:
walk the (sorted) entries, remembering the value of the last entry whose date
is `≤ target_iso`, and stop at the first entry beyond it. -/
def entryScan {α : Type} (target_iso : String) :
    List (String × α) → Option α → Option α
  | [], acc => acc
  | (k, v) :: rest, acc =>
    if strLe k target_iso then entryScan target_iso rest (some v) else acc

/-- The profile state of `CalorieTrackerUser`.  Field `x` models attribute
`self._x`; `goal_type` / `goal_value` are the defaults cached by `__init__`. -/
structure CalorieTrackerUser where
  storage : CalorieStorageManager
  spoken_name : String
  goal_value : ℚ
  goal_type : Option String
  starting_weight : ℤ
  goal_weight : ℤ
  weight_unit : String
  birth_year : Option ℤ
  sex : Option String
  height : Option ℤ
  height_unit : String
  body_fat_pct : ℚ
  neat : ℚ
deriving DecidableEq, Repr

namespace CalorieTrackerUser

/-- `CalorieTrackerUser.__init__`: build a profile over a storage backend.
`today` stands for `dt_util.now().date().isoformat()`, used by the initial
`self.get_goal()` call; `_body_fat_pct` is initialized to `0.0`. -/
def mk_init (today : String) (spoken_name : String)
    (storage : CalorieStorageManager) (starting_weight goal_weight : ℤ)
    (weight_unit : String) (birth_year : Option ℤ) (sex : Option String)
    (height : Option ℤ) (height_unit : String) (neat : ℚ) :
    CalorieTrackerUser :=
  let current_goal := storage.get_goal today
  { storage := storage
    spoken_name := spoken_name
    goal_value := match current_goal with | some g => g.goal_value | none => 0
    goal_type := match current_goal with | some g => some g.goal_type | none => none
    starting_weight := starting_weight
    goal_weight := goal_weight
    weight_unit := weight_unit
    birth_year := birth_year
    sex := sex
    height := height
    height_unit := height_unit
    body_fat_pct := 0
    neat := neat }

/-- `CalorieTrackerUser.get_goal` (with an explicit date). -/
def get_goal (u : CalorieTrackerUser) (date_str : String) : Option GoalRes :=
  u.storage.get_goal date_str

/-- `CalorieTrackerUser.get_weight_unit`: `self._weight_unit or "lbs"`. -/
def get_weight_unit (u : CalorieTrackerUser) : String :=
  if u.weight_unit = "" then "lbs" else u.weight_unit

/-- `CalorieTrackerUser.get_goal_type` (with an explicit date): the goal type
for the date, else the cached default. -/
def get_goal_type (u : CalorieTrackerUser) (date_str : String) : Option String :=
  match u.get_goal date_str with
  | some g => some g.goal_type
  | none => u.goal_type

/-- `CalorieTrackerUser.get_height_in_cm`. -/
def get_height_in_cm (u : CalorieTrackerUser) : Option ℚ :=
  match u.height with
  | none => none
  | some h => if u.height_unit = "in" then some (h * 2.54) else some (h : ℚ)

/-- `CalorieTrackerUser.get_weight`: exact date, else most recent before,
else earliest after, else the profile starting weight.  The source annotates
the result `float | None` but every branch returns a number, hence `some`
on every path. -/
def get_weight (u : CalorieTrackerUser) (date_str : String) : Option ℚ :=
  let target_iso := dateOnly date_str
  match u.storage.get_weight target_iso with
  | some weight => some weight
  | none =>
    let all_entries := u.storage.get_all_weights
    if all_entries = [] then some (u.starting_weight : ℚ)
    else
      let sorted_entries := sortByKey all_entries
      match entryScan target_iso sorted_entries none with
      | some most_recent_before => some most_recent_before
      | none =>
        match sorted_entries with
        | e :: _ => some e.2
        | [] => some (u.starting_weight : ℚ)

/-- `CalorieTrackerUser.get_body_fat_pct`: exact date, else most recent
before, else earliest after, else the profile default `self._body_fat_pct`.
As with `get_weight`, every branch returns a number. -/
def get_body_fat_pct (u : CalorieTrackerUser) (date_str : String) : Option ℚ :=
  let target_iso := dateOnly date_str
  match u.storage.get_body_fat_pct target_iso with
  | some body_fat_pct => some body_fat_pct
  | none =>
    let all_entries := u.storage.get_all_body_fat_pcts
    if all_entries = [] then some u.body_fat_pct
    else
      let sorted_entries := sortByKey all_entries
      match entryScan target_iso sorted_entries none with
      | some most_recent_before => some most_recent_before
      | none =>
        match sorted_entries with
        | e :: _ => some e.2
        | [] => some u.body_fat_pct

/-- `CalorieTrackerUser.calculate_bmr`: tiered BMR estimate.
Tier 1 (Cunningham) / tier 2 (Katch-McArdle) when `get_body_fat_pct` yields a
value; tier 3 (Owen) / tier 4 (Mifflin-St Jeor) in the `None` case of that
call, translated as written from the source. -/
def calculate_bmr (u : CalorieTrackerUser) (date_str : String) : Option ℚ :=
  match u.sex, u.get_height_in_cm, u.get_weight date_str with
  | some sex, some height_cm, some weight =>
    -- `if not all([sex, height_cm, weight]): return None`
    if sex = "" ∨ height_cm = 0 ∨ weight = 0 then none
    else
      let weight_kg := if u.get_weight_unit = "lbs" then weight * 0.453592 else weight
      let height_m := height_cm / 100
      let bmi := weight_kg / (height_m * height_m)
      match u.get_body_fat_pct date_str with
      | some body_fat_pct =>
        let lean_body_mass := weight_kg * (1 - body_fat_pct / 100)
        if body_fat_pct > 25 then some (round1 (500 + 22 * lean_body_mass))
        else some (round1 (370 + 21.6 * lean_body_mass))
      | none =>
        if bmi > 25 then
          if sex.toLower = "male" then some (round1 (879 + 10.2 * weight_kg))
          else if sex.toLower = "female" then some (round1 (795 + 7.18 * weight_kg))
          else none
        else
          match u.birth_year with
          | none => none
          | some birth_year =>
            let age : ℤ := parseYear date_str - birth_year
            if sex.toLower = "male" then
              some (round1 (10 * weight_kg + 6.25 * height_cm - 5 * (age : ℚ) + 5))
            else if sex.toLower = "female" then
              some (round1 (10 * weight_kg + 6.25 * height_cm - 5 * (age : ℚ) - 161))
            else none
  | _, _, _ => none

/-- The result of `CalorieTrackerUser.get_log`. -/
structure DayLog where
  food_entries : List Entry
  exercise_entries : List Entry
  weight : Option ℚ
  body_fat_pct : Option ℚ
  calories : ℤ × ℤ
deriving Repr

/-- `CalorieTrackerUser.get_log`: the food/exercise entries of one date and
their calorie sums (`entry.get("calories", 0) or 0` maps both a missing key
and `None`/`0` to `0`, as `Option.getD 0` does on this model). -/
def get_log (u : CalorieTrackerUser) (date_str : String) : DayLog :=
  let target_date_str := dateOnly date_str
  let food_entries := u.storage.food_entries.filter
    (fun e => strStartsWith e.timestamp target_date_str)
  let exercise_entries := u.storage.exercise_entries.filter
    (fun e => strStartsWith e.timestamp target_date_str)
  let food := food_entries.foldl (fun acc e => acc + e.calories.getD 0) 0
  let exercise := exercise_entries.foldl
    (fun acc e => acc + e.calories_burned.getD 0) 0
  { food_entries := food_entries
    exercise_entries := exercise_entries
    weight := u.get_weight date_str
    body_fat_pct := u.get_body_fat_pct date_str
    calories := (food, exercise) }

end CalorieTrackerUser

namespace CalorieTrackerUser

/-- `CalorieTrackerUser.calculate_remaining_calories`.
When `get_goal` returns `None` the goals map is empty, so the
`self.get_goal_type()` / `self._goal_value` fallbacks reduce to the cached
profile defaults (today's lookup is `None` as well); the fallback is
translated accordingly. -/
def calculate_remaining_calories (u : CalorieTrackerUser) (date_str : String) : ℤ :=
  let log := u.get_log date_str
  let food := log.calories.1
  let exercise := log.calories.2
  let goal := u.get_goal date_str
  let goal_type : Option String :=
    match goal with | some g => some g.goal_type | none => u.goal_type
  let goal_value : ℚ :=
    match goal with | some g => g.goal_value | none => u.goal_value
  -- `if not goal_type or not goal_value: return 0`
  if goal_type = none ∨ goal_type = some "" ∨ goal_value = 0 then 0
  else
    let gt := goal_type.getD ""
    let daily_goal : Option ℚ :=
      if strStartsWith gt "variable" then
        match u.calculate_bmr date_str with
        | none => none
        | some bmr =>
          let bmr_baseline := bmr * u.neat
          match u.get_weight date_str with
          | none => none
          | some current_weight =>
            let weight_lbs :=
              if u.get_weight_unit = "kg" then current_weight * 2.20462
              else current_weight
            let daily_adjustment := weight_lbs * goal_value / 100 * 3500 / 7
            if pyInStr "cut" gt then some (bmr_baseline - daily_adjustment)
            else if pyInStr "bulk" gt then some (bmr_baseline + daily_adjustment)
            else some (bmr_baseline - daily_adjustment)
      else if gt = "fixed_intake" ∨ gt = "fixed_net_calories" then
        some goal_value
      else if gt = "fixed_deficit" then
        match u.calculate_bmr date_str with
        | none => none
        | some bmr => some (bmr * u.neat - goal_value)
      else if gt = "fixed_surplus" then
        match u.calculate_bmr date_str with
        | none => none
        | some bmr => some (bmr * u.neat + goal_value)
      else some goal_value
    match daily_goal with
    | none => 0
    | some daily_goal =>
      let current_calories : ℤ :=
        if gt = "fixed_net_calories" ∨ strStartsWith gt "variable" then
          food - exercise
        else if gt = "fixed_intake" then food
        else food - exercise
      pyInt (daily_goal - (current_calories : ℚ))

/-- `CalorieTrackerUser.calculate_daily_goal_calories` (same structure and
fallbacks as `calculate_remaining_calories`, without the consumption step). -/
def calculate_daily_goal_calories (u : CalorieTrackerUser) (date_str : String) : ℤ :=
  let goal := u.get_goal date_str
  let goal_type : Option String :=
    match goal with | some g => some g.goal_type | none => u.goal_type
  let goal_value : ℚ :=
    match goal with | some g => g.goal_value | none => u.goal_value
  if goal_type = none ∨ goal_type = some "" ∨ goal_value = 0 then 0
  else
    let gt := goal_type.getD ""
    let daily_goal : Option ℚ :=
      if strStartsWith gt "variable" then
        match u.calculate_bmr date_str with
        | none => none
        | some bmr =>
          let bmr_baseline := bmr * u.neat
          match u.get_weight date_str with
          | none => none
          | some current_weight =>
            let weight_lbs :=
              if u.get_weight_unit = "kg" then current_weight * 2.20462
              else current_weight
            let daily_adjustment := weight_lbs * goal_value / 100 * 3500 / 7
            if pyInStr "cut" gt then some (bmr_baseline - daily_adjustment)
            else if pyInStr "bulk" gt then some (bmr_baseline + daily_adjustment)
            else some (bmr_baseline - daily_adjustment)
      else if gt = "fixed_intake" ∨ gt = "fixed_net_calories" then
        some goal_value
      else if gt = "fixed_deficit" then
        match u.calculate_bmr date_str with
        | none => none
        | some bmr => some (bmr * u.neat - goal_value)
      else if gt = "fixed_surplus" then
        match u.calculate_bmr date_str with
        | none => none
        | some bmr => some (bmr * u.neat + goal_value)
      else some goal_value
    match daily_goal with
    | none => 0
    | some daily_goal => pyInt daily_goal

end CalorieTrackerUser

/-! Gregorian calendar arithmetic, modelling Python's `datetime.date`.
A date is identified with its day count since 1970-01-01 (negative before);
the civil conversions are the standard era-based algorithms.  `tdiv` is
truncating division (all intermediate values are arranged to be nonnegative
for dates of interest). -/

/-- Day count since 1970-01-01 of the civil date `(y, m, d)`. -/
def daysFromCivil (y m d : ℤ) : ℤ :=
  let y' := if m ≤ 2 then y - 1 else y
  let era := (if 0 ≤ y' then y' else y' - 399).tdiv 400
  let yoe := y' - era * 400
  let mp := (m + 9) % 12
  let doy := (153 * mp + 2).tdiv 5 + d - 1
  let doe := yoe * 365 + yoe.tdiv 4 - yoe.tdiv 100 + doy
  era * 146097 + doe - 719468

/-- Civil date `(y, m, d)` of a day count since 1970-01-01. -/
def civilFromDays (z : ℤ) : ℤ × ℤ × ℤ :=
  let z' := z + 719468
  let era := (if 0 ≤ z' then z' else z' - 146096).tdiv 146097
  let doe := z' - era * 146097
  let yoe := (doe - doe.tdiv 1460 + doe.tdiv 36524 - doe.tdiv 146096).tdiv 365
  let y := yoe + era * 400
  let doy := doe - (365 * yoe + yoe.tdiv 4 - yoe.tdiv 100)
  let mp := (5 * doy + 2).tdiv 153
  let d := doy - (153 * mp + 2).tdiv 5 + 1
  let m := mp + (if mp < 10 then 3 else -9)
  (if m ≤ 2 then y + 1 else y, m, d)

/-- Python `date.weekday()`: Monday is `0`; day `0` (1970-01-01) was a Thursday. -/
def weekdayOfDays (z : ℤ) : ℤ :=
  (z + 3) % 7

/-- Left-pad the decimal digits of a nonnegative integer with zeros to
`w` characters (as `date.isoformat` does for each component). -/
def zfill (w : Nat) (n : ℤ) : String :=
  let s := toString n.natAbs
  String.mk (List.replicate (w - s.length) '0') ++ s

/-- The day count of a well-formed ISO date string
(`dt_util.parse_datetime(s).date()`). -/
def daysOfIso (s : String) : ℤ :=
  match splitOnChar '-' (dateOnly s).data with
  | [ys, ms, ds] =>
    daysFromCivil (digitsToNat ys : ℤ) (digitsToNat ms : ℤ) (digitsToNat ds : ℤ)
  | _ => 0

/-- The ISO string of a day count (`date.isoformat()`). -/
def isoOfDays (z : ℤ) : String :=
  let c := civilFromDays z
  zfill 4 c.1 ++ "-" ++ zfill 2 c.2.1 ++ "-" ++ zfill 2 c.2.2

namespace CalorieTrackerUser

/-- One value of the `get_weekly_summary` result: the per-day tuple
`(food, exercise, bmr_and_neat, daily_calorie_goal, goal_type, weight,
goal_value, macros, remaining_calories)`. -/
structure DaySummary where
  food : ℤ
  exercise : ℤ
  bmr_and_neat : ℤ
  daily_calorie_goal : ℤ
  goal_type : String
  weight : ℚ
  goal_value : ℚ
  macros : List (String × ℤ)
  remaining_calories : ℤ
deriving DecidableEq, Repr

/-- The per-day bucket accumulation of `get_weekly_summary`: the calorie sum
over the entries whose 10-character date prefix is `date_iso`. -/
def sumOn (date_iso : String) (cal : Entry → Option ℤ) (entries : List Entry) : ℤ :=
  entries.foldl
    (fun acc e =>
      if String.mk (e.timestamp.data.take 10) = date_iso then acc + (cal e).getD 0
      else acc) 0

/-- The Sunday-to-Saturday week of day `z`, as day counts. -/
def weekDays (z : ℤ) : List ℤ :=
  let days_since_sunday := (weekdayOfDays z + 1) % 7
  let sunday := z - days_since_sunday
  (List.range 7).map (fun i => sunday + (i : ℤ))

/-- The per-day body of the `get_weekly_summary` loop at day `z`. -/
def weeklyDay (u : CalorieTrackerUser) (include_macros : Bool) (z : ℤ) :
    String × DaySummary :=
  let date_iso := isoOfDays z
  let food := sumOn date_iso Entry.calories u.storage.food_entries
  let exercise := sumOn date_iso Entry.calories_burned u.storage.exercise_entries
  let bmr := (u.calculate_bmr date_iso).getD 0
  let bmr_and_neat := pyRoundInt (if bmr = 0 then 0 else bmr * u.neat)
  let goal := u.get_goal date_iso
  let goal_type := match goal with | some g => g.goal_type | none => "Not Found"
  let goal_value : ℚ := match goal with | some g => g.goal_value | none => 0
  let weight := (u.get_weight date_iso).getD 0
  let daily_calorie_goal : ℤ :=
    if goal_type = "fixed_intake" ∨ goal_type = "fixed_net_calories" then
      pyRoundInt goal_value
    else if goal_type = "fixed_deficit" then
      pyRoundInt ((bmr_and_neat : ℚ) - goal_value)
    else if goal_type = "fixed_surplus" then
      pyRoundInt ((bmr_and_neat : ℚ) + goal_value)
    else if goal_type = "variable_cut" ∨ goal_type = "variable_bulk" then
      let percent := goal_value / 100
      let cal_per_weight : ℚ := if u.get_weight_unit = "kg" then 7700 else 3500
      let per_day_delta := weight * percent / 7 * cal_per_weight
      if goal_type = "variable_cut" then
        pyRoundInt ((bmr_and_neat : ℚ) - per_day_delta)
      else pyRoundInt ((bmr_and_neat : ℚ) + per_day_delta)
    else pyRoundInt goal_value
  let remaining_calories := u.calculate_remaining_calories date_iso
  let macros := if include_macros then u.storage.get_daily_macros date_iso else []
  (date_iso,
   { food := food, exercise := exercise, bmr_and_neat := bmr_and_neat
     daily_calorie_goal := daily_calorie_goal, goal_type := goal_type
     weight := weight, goal_value := goal_value, macros := macros
     remaining_calories := remaining_calories })

/-- `CalorieTrackerUser.get_weekly_summary`: the Sunday-to-Saturday week of
`date_str`, with per-day calorie totals and goal resolution. -/
def get_weekly_summary (u : CalorieTrackerUser) (date_str : String)
    (include_macros : Bool) : List (String × DaySummary) :=
  (weekDays (daysOfIso date_str)).map (u.weeklyDay include_macros)

end CalorieTrackerUser

/-! ### General lemmas about the embedded functions -/

namespace CalorieTrackerUser

/-- The `weight_kg` conversion step of `calculate_bmr` (and the spec's
"weight converted to kg"), as a statement abbreviation. -/
def bmrWeightKg (u : CalorieTrackerUser) (w : ℚ) : ℚ :=
  if u.get_weight_unit = "lbs" then w * 0.453592 else w

/-- With sex, height and weight present and a body-fat percentage from
`get_body_fat_pct`, `calculate_bmr` returns the Cunningham value above 25%
body fat and the Katch-McArdle value at or below it. -/
theorem calculate_bmr_bodyfat (u : CalorieTrackerUser) (d : String)
    (s : String) (hs : u.sex = some s) (hs0 : ¬ s = "")
    (hc : ℚ) (hhc : u.get_height_in_cm = some hc) (hc0 : ¬ hc = 0)
    (w : ℚ) (hw : u.get_weight d = some w) (hw0 : ¬ w = 0)
    (bf : ℚ) (hbf : u.get_body_fat_pct d = some bf) :
    u.calculate_bmr d =
      some (if 25 < bf
        then round1 (500 + 22 * (u.bmrWeightKg w * (1 - bf / 100)))
        else round1 (370 + 21.6 * (u.bmrWeightKg w * (1 - bf / 100)))) := by
  unfold calculate_bmr
  rw [hs, hhc, hw, hbf]
  simp only [hs0, hc0, hw0, or_self, if_false, bmrWeightKg]
  simp [hs0, hc0, hw0]
  split <;> rfl

end CalorieTrackerUser

namespace CalorieTrackerUser

/-- `get_body_fat_pct` returns a value on every input: each code path ends in
a number (the exact entry, a neighbouring entry, or the profile default). -/
theorem get_body_fat_pct_isSome (u : CalorieTrackerUser) (d : String) :
    (u.get_body_fat_pct d).isSome = true := by
  unfold get_body_fat_pct
  simp only []
  repeat' first
    | rfl
    | split

/-- With no logged body-fat entries, `get_body_fat_pct` returns the profile
default `self._body_fat_pct`. -/
theorem get_body_fat_pct_of_empty (u : CalorieTrackerUser) (d : String)
    (h : u.storage.body_fat_pcts = []) :
    u.get_body_fat_pct d = some u.body_fat_pct := by
  unfold get_body_fat_pct CalorieStorageManager.get_body_fat_pct
    CalorieStorageManager.get_all_body_fat_pcts
  rw [h]
  rfl

/-- `get_weight` returns a value on every input. -/
theorem get_weight_isSome (u : CalorieTrackerUser) (d : String) :
    (u.get_weight d).isSome = true := by
  unfold get_weight
  simp only []
  repeat' first
    | rfl
    | split

/-- With no logged weights, `get_weight` returns the profile starting weight. -/
theorem get_weight_of_empty (u : CalorieTrackerUser) (d : String)
    (h : u.storage.weights = []) :
    u.get_weight d = some (u.starting_weight : ℚ) := by
  unfold get_weight CalorieStorageManager.get_weight
    CalorieStorageManager.get_all_weights
  rw [h]
  rfl

/-- `calculate_daily_goal_calories` on a `fixed_deficit` goal: the exact
target `bmr × neat − goal_value` truncated toward zero. -/
theorem daily_goal_fixed_deficit (u : CalorieTrackerUser) (d : String)
    (g : GoalRes) (hg : u.get_goal d = some g)
    (ht : g.goal_type = "fixed_deficit") (hv : ¬ g.goal_value = 0)
    (b : ℚ) (hb : u.calculate_bmr d = some b) :
    u.calculate_daily_goal_calories d = pyInt (b * u.neat - g.goal_value) := by
  obtain ⟨gt, gv, sd⟩ := g
  simp only [GoalRes.goal_type] at ht
  subst ht
  simp only [GoalRes.goal_value] at hv ⊢
  unfold calculate_daily_goal_calories
  rw [hg, hb]
  simp +decide [hv]

end CalorieTrackerUser

namespace CalorieTrackerUser

/-- `calculate_remaining_calories` on a `fixed_deficit` goal: the exact
target minus net consumption (food − exercise), truncated toward zero. -/
theorem remaining_fixed_deficit (u : CalorieTrackerUser) (d : String)
    (g : GoalRes) (hg : u.get_goal d = some g)
    (ht : g.goal_type = "fixed_deficit") (hv : ¬ g.goal_value = 0)
    (b : ℚ) (hb : u.calculate_bmr d = some b) :
    u.calculate_remaining_calories d =
      pyInt (b * u.neat - g.goal_value -
        (((u.get_log d).calories.1 - (u.get_log d).calories.2 : ℤ) : ℚ)) := by
  obtain ⟨gt, gv, sd⟩ := g
  simp only [GoalRes.goal_type] at ht
  subst ht
  simp only [GoalRes.goal_value] at hv ⊢
  unfold calculate_remaining_calories
  rw [hg, hb]
  simp +decide [hv, sub_sub]

/-- `calculate_daily_goal_calories` on a `variable_cut` goal: the weight is
converted to pounds (`× 2.20462` from kg) and the weekly percentage delta
uses 3500 kcal per pound; the result is truncated toward zero. -/
theorem daily_goal_variable_cut (u : CalorieTrackerUser) (d : String)
    (g : GoalRes) (hg : u.get_goal d = some g)
    (ht : g.goal_type = "variable_cut") (hv : ¬ g.goal_value = 0)
    (b : ℚ) (hb : u.calculate_bmr d = some b)
    (w : ℚ) (hw : u.get_weight d = some w) :
    u.calculate_daily_goal_calories d =
      pyInt (b * u.neat -
        (if u.get_weight_unit = "kg" then w * 2.20462 else w) *
          g.goal_value / 100 * 3500 / 7) := by
  obtain ⟨gt, gv, sd⟩ := g
  simp only [GoalRes.goal_type] at ht
  subst ht
  simp only [GoalRes.goal_value] at hv ⊢
  unfold calculate_daily_goal_calories
  rw [hg, hb, hw]
  simp +decide [hv]

/-- `calculate_daily_goal_calories` on a `variable_bulk` goal (as the cut
case with the delta added). -/
theorem daily_goal_variable_bulk (u : CalorieTrackerUser) (d : String)
    (g : GoalRes) (hg : u.get_goal d = some g)
    (ht : g.goal_type = "variable_bulk") (hv : ¬ g.goal_value = 0)
    (b : ℚ) (hb : u.calculate_bmr d = some b)
    (w : ℚ) (hw : u.get_weight d = some w) :
    u.calculate_daily_goal_calories d =
      pyInt (b * u.neat +
        (if u.get_weight_unit = "kg" then w * 2.20462 else w) *
          g.goal_value / 100 * 3500 / 7) := by
  obtain ⟨gt, gv, sd⟩ := g
  simp only [GoalRes.goal_type] at ht
  subst ht
  simp only [GoalRes.goal_value] at hv ⊢
  unfold calculate_daily_goal_calories
  rw [hg, hb, hw]
  simp +decide [hv]

/-- `calculate_daily_goal_calories` on an unrecognized goal type that starts
with "variable" but contains neither "cut" nor "bulk": the code falls through
to the generic variable branch and subtracts the delta (assumes cutting). -/
theorem daily_goal_variable_other (u : CalorieTrackerUser) (d : String)
    (g : GoalRes) (hg : u.get_goal d = some g)
    (hstart : strStartsWith g.goal_type "variable" = true)
    (hcut : pyInStr "cut" g.goal_type = false)
    (hbulk : pyInStr "bulk" g.goal_type = false)
    (h0 : ¬ g.goal_type = "") (hv : ¬ g.goal_value = 0)
    (b : ℚ) (hb : u.calculate_bmr d = some b)
    (w : ℚ) (hw : u.get_weight d = some w) :
    u.calculate_daily_goal_calories d =
      pyInt (b * u.neat -
        (if u.get_weight_unit = "kg" then w * 2.20462 else w) *
          g.goal_value / 100 * 3500 / 7) := by
  unfold calculate_daily_goal_calories
  rw [hg, hb, hw]
  simp [h0, hv, hstart, hcut, hbulk]

/-- `calculate_daily_goal_calories` on a goal type that is neither variable
nor one of the four fixed types: the goal value itself is the target. -/
theorem daily_goal_unknown (u : CalorieTrackerUser) (d : String)
    (g : GoalRes) (hg : u.get_goal d = some g)
    (h0 : ¬ g.goal_type = "") (hv : ¬ g.goal_value = 0)
    (hvar : strStartsWith g.goal_type "variable" = false)
    (h1 : ¬ g.goal_type = "fixed_intake")
    (h2 : ¬ g.goal_type = "fixed_net_calories")
    (h3 : ¬ g.goal_type = "fixed_deficit")
    (h4 : ¬ g.goal_type = "fixed_surplus") :
    u.calculate_daily_goal_calories d = pyInt g.goal_value := by
  unfold calculate_daily_goal_calories
  rw [hg]
  simp [h0, hv, hvar, h1, h2, h3, h4]

/-- `calculate_remaining_calories` on such an unknown goal type: the goal
value minus net consumption (food − exercise), truncated toward zero. -/
theorem remaining_unknown (u : CalorieTrackerUser) (d : String)
    (g : GoalRes) (hg : u.get_goal d = some g)
    (h0 : ¬ g.goal_type = "") (hv : ¬ g.goal_value = 0)
    (hvar : strStartsWith g.goal_type "variable" = false)
    (h1 : ¬ g.goal_type = "fixed_intake")
    (h2 : ¬ g.goal_type = "fixed_net_calories")
    (h3 : ¬ g.goal_type = "fixed_deficit")
    (h4 : ¬ g.goal_type = "fixed_surplus") :
    u.calculate_remaining_calories d =
      pyInt (g.goal_value -
        (((u.get_log d).calories.1 - (u.get_log d).calories.2 : ℤ) : ℚ)) := by
  unfold calculate_remaining_calories
  rw [hg]
  simp [h0, hv, hvar, h1, h2, h3, h4]

end CalorieTrackerUser

namespace CalorieTrackerUser

/-- Each day of the week belongs to the weekly summary via `weeklyDay`. -/
theorem weeklyDay_mem_summary (u : CalorieTrackerUser) (include_macros : Bool)
    (d : String) (z : ℤ) (hz : z ∈ weekDays (daysOfIso d)) :
    u.weeklyDay include_macros z ∈ u.get_weekly_summary d include_macros :=
  List.mem_map_of_mem _ hz

/-- The daily calorie goal of a `get_weekly_summary` day on a `fixed_deficit`
goal: `bmr × neat` rounded to the nearest integer, minus the goal value,
rounded to the nearest integer. -/
theorem weeklyDay_fixed_deficit (u : CalorieTrackerUser) (m : Bool) (z : ℤ)
    (g : GoalRes) (hg : u.get_goal (isoOfDays z) = some g)
    (ht : g.goal_type = "fixed_deficit")
    (b : ℚ) (hb : u.calculate_bmr (isoOfDays z) = some b) (hb0 : ¬ b = 0) :
    (u.weeklyDay m z).2.daily_calorie_goal =
      pyRoundInt ((pyRoundInt (b * u.neat) : ℚ) - g.goal_value) := by
  obtain ⟨gt, gv, sd⟩ := g
  simp only [GoalRes.goal_type] at ht
  subst ht
  unfold weeklyDay
  dsimp only
  rw [hg, hb]
  simp +decide [hb0]

/-- The daily calorie goal of a `get_weekly_summary` day on a `variable_cut`
goal: here the per-day delta takes the weight in the profile unit and uses
7700 kcal per kg when the unit is kg (3500 kcal per lb otherwise). -/
theorem weeklyDay_variable_cut (u : CalorieTrackerUser) (m : Bool) (z : ℤ)
    (g : GoalRes) (hg : u.get_goal (isoOfDays z) = some g)
    (ht : g.goal_type = "variable_cut")
    (b : ℚ) (hb : u.calculate_bmr (isoOfDays z) = some b) (hb0 : ¬ b = 0)
    (w : ℚ) (hw : u.get_weight (isoOfDays z) = some w) :
    (u.weeklyDay m z).2.daily_calorie_goal =
      pyRoundInt ((pyRoundInt (b * u.neat) : ℚ) -
        w * (g.goal_value / 100) / 7 *
          (if u.get_weight_unit = "kg" then 7700 else 3500)) := by
  obtain ⟨gt, gv, sd⟩ := g
  simp only [GoalRes.goal_type] at ht
  subst ht
  unfold weeklyDay
  dsimp only
  rw [hg, hb, hw]
  simp +decide [hb0]

/-- The daily calorie goal of a `get_weekly_summary` day on a `variable_bulk`
goal (as the cut case with the delta added). -/
theorem weeklyDay_variable_bulk (u : CalorieTrackerUser) (m : Bool) (z : ℤ)
    (g : GoalRes) (hg : u.get_goal (isoOfDays z) = some g)
    (ht : g.goal_type = "variable_bulk")
    (b : ℚ) (hb : u.calculate_bmr (isoOfDays z) = some b) (hb0 : ¬ b = 0)
    (w : ℚ) (hw : u.get_weight (isoOfDays z) = some w) :
    (u.weeklyDay m z).2.daily_calorie_goal =
      pyRoundInt ((pyRoundInt (b * u.neat) : ℚ) +
        w * (g.goal_value / 100) / 7 *
          (if u.get_weight_unit = "kg" then 7700 else 3500)) := by
  obtain ⟨gt, gv, sd⟩ := g
  simp only [GoalRes.goal_type] at ht
  subst ht
  unfold weeklyDay
  dsimp only
  rw [hg, hb, hw]
  simp +decide [hb0]

end CalorieTrackerUser

/-! ### The string order `strLe`: reflexivity, totality, transitivity -/

theorem charListLe_refl : ∀ l : List Char, charListLe l l = true
  | [] => rfl
  | c :: cs => by simp [charListLe, charListLe_refl cs]

theorem charListLe_total : ∀ a b : List Char,
    charListLe a b = true ∨ charListLe b a = true
  | [], _ => Or.inl rfl
  | _ :: _, [] => Or.inr rfl
  | c :: cs, d :: ds => by
    rcases Nat.lt_trichotomy c.toNat d.toNat with h | h | h
    · exact Or.inl (by simp [charListLe, Nat.ne_of_lt h, h])
    · rcases charListLe_total cs ds with ih | ih
      · exact Or.inl (by simp [charListLe, h, ih])
      · exact Or.inr (by simp [charListLe, h.symm, ih])
    · exact Or.inr (by simp [charListLe, Nat.ne_of_lt h, h])

theorem charListLe_trans : ∀ a b c : List Char,
    charListLe a b = true → charListLe b c = true → charListLe a c = true
  | [], _, _, _, _ => rfl
  | _ :: _, [], _, h1, _ => by simp [charListLe] at h1
  | _ :: _, _ :: _, [], _, h2 => by simp [charListLe] at h2
  | x :: xs, y :: ys, z :: zs, h1, h2 => by
    simp only [charListLe] at h1 h2 ⊢
    by_cases hxy : x.toNat = y.toNat
    · rw [if_pos hxy] at h1
      by_cases hyz : y.toNat = z.toNat
      · rw [if_pos hyz] at h2
        rw [if_pos (hxy.trans hyz)]
        exact charListLe_trans xs ys zs h1 h2
      · rw [if_neg hyz, decide_eq_true_eq] at h2
        rw [if_neg (by omega), decide_eq_true_eq]
        omega
    · rw [if_neg hxy, decide_eq_true_eq] at h1
      by_cases hyz : y.toNat = z.toNat
      · rw [if_pos hyz] at h2
        rw [if_neg (by omega), decide_eq_true_eq]
        omega
      · rw [if_neg hyz, decide_eq_true_eq] at h2
        rw [if_neg (by omega), decide_eq_true_eq]
        omega

theorem strLe_refl (a : String) : strLe a a = true :=
  charListLe_refl a.data

theorem strLe_total (a b : String) : strLe a b = true ∨ strLe b a = true :=
  charListLe_total a.data b.data

theorem strLe_trans {a b c : String} (h1 : strLe a b = true)
    (h2 : strLe b c = true) : strLe a c = true :=
  charListLe_trans a.data b.data c.data h1 h2

/-- `strLe` is total, so a failed comparison flips. -/
theorem strLe_of_not_strLe {a b : String} (h : ¬ strLe a b = true) :
    strLe b a = true :=
  (strLe_total a b).resolve_left h

instance {α : Type} : IsTotal (String × α) keyLe :=
  ⟨fun a b => strLe_total a.1 b.1⟩

instance {α : Type} : IsTrans (String × α) keyLe :=
  ⟨fun _ _ _ h1 h2 => strLe_trans h1 h2⟩

/-- `sortByKey` is a permutation of its input. -/
theorem sortByKey_perm {α : Type} (l : List (String × α)) :
    List.Perm (sortByKey l) l :=
  List.perm_insertionSort keyLe l

/-- `sortByKey` sorts by `keyLe`. -/
theorem sortByKey_pairwise {α : Type} (l : List (String × α)) :
    (sortByKey l).Pairwise keyLe :=
  List.sorted_insertionSort keyLe l

/-! ### Sorted-scan lemmas for the historical lookups -/

/-- On a list that is pairwise-below a downward-closed predicate, `takeWhile`
captures the same elements as `filter`. -/
theorem takeWhile_eq_filter_of_pairwise {β : Type} (p : β → Bool)
    (R : β → β → Prop) (hdc : ∀ x y, R x y → p y = true → p x = true) :
    ∀ l : List β, l.Pairwise R → l.takeWhile p = l.filter p
  | [], _ => rfl
  | b :: l, h => by
    rcases List.pairwise_cons.mp h with ⟨hb, hl⟩
    by_cases hpb : p b = true
    · rw [List.takeWhile_cons_of_pos hpb, List.filter_cons_of_pos hpb,
        takeWhile_eq_filter_of_pairwise p R hdc l hl]
    · rw [List.takeWhile_cons_of_neg hpb, List.filter_cons_of_neg hpb,
        List.filter_eq_nil_iff.mpr]
      intro x hx
      exact fun hpx => hpb (hdc b x (hb x hx) hpx)

/-- In a `Pairwise R` list, every member is `R`-below the last element
(or is the last element). -/
theorem mem_rel_getLast_of_pairwise {β : Type} (R : β → β → Prop) :
    ∀ l : List β, l.Pairwise R → ∀ x ∈ l, ∀ e, l.getLast? = some e →
      x = e ∨ R x e
  | [], _, x, hx, _, _ => absurd hx (List.not_mem_nil x)
  | [b], _, x, hx, e, he => by
    simp only [List.mem_singleton] at hx
    simp only [List.getLast?_singleton, Option.some.injEq] at he
    exact Or.inl (hx.trans he)
  | b :: b' :: l, h, x, hx, e, he => by
    rcases List.pairwise_cons.mp h with ⟨hb, hl⟩
    rw [List.getLast?_cons_cons] at he
    rcases List.mem_cons.mp hx with rfl | hx'
    · right
      have hemem : e ∈ b' :: l := List.mem_of_getLast?_eq_some he
      exact hb e hemem
    · exact mem_rel_getLast_of_pairwise R (b' :: l) hl x hx' e he

/-- In a `Pairwise R` list, the head is `R`-below every other member. -/
theorem head_rel_mem_of_pairwise {β : Type} (R : β → β → Prop)
    (b : β) (l : List β) (h : (b :: l).Pairwise R) :
    ∀ x ∈ b :: l, x = b ∨ R b x := by
  rcases List.pairwise_cons.mp h with ⟨hb, _⟩
  intro x hx
  rcases List.mem_cons.mp hx with rfl | hx'
  · exact Or.inl rfl
  · exact Or.inr (hb x hx')

/-- The stop-at-first-failure scan of `get_weight` / `get_body_fat_pct`
returns the value of the last element of the `takeWhile` run (or the
accumulator when the run is empty). -/
theorem entryScan_eq_takeWhile {α : Type} (target : String) :
    ∀ (l : List (String × α)) (acc : Option α),
      entryScan target l acc =
        match (l.takeWhile (fun p => strLe p.1 target)).getLast? with
        | some e => some e.2
        | none => acc
  | [], acc => rfl
  | (k, v) :: l, acc => by
    by_cases hk : strLe k target = true
    · rw [entryScan, if_pos hk, entryScan_eq_takeWhile target l (some v)]
      have : ((k, v) :: l).takeWhile (fun p => strLe p.1 target) =
          (k, v) :: l.takeWhile (fun p => strLe p.1 target) :=
        List.takeWhile_cons_of_pos hk
      rw [this]
      cases hlast : (l.takeWhile (fun p => strLe p.1 target)).getLast? with
      | none =>
        have : l.takeWhile (fun p => strLe p.1 target) = [] :=
          List.getLast?_eq_none_iff.mp hlast
        simp [this]
      | some e =>
        have hcons : ((k, v) :: l.takeWhile (fun p => strLe p.1 target)).getLast? =
            some e := by
          cases htw : l.takeWhile (fun p => strLe p.1 target) with
          | nil => rw [htw] at hlast; exact Option.noConfusion hlast
          | cons x xs => rw [htw] at hlast; rw [List.getLast?_cons_cons]; exact hlast
        rw [hcons]
    · rw [entryScan, if_neg hk]
      have : ((k, v) :: l).takeWhile (fun p => strLe p.1 target) = [] :=
        List.takeWhile_cons_of_neg (by simpa using hk)
      rw [this]
      rfl

/-- The analogous scan of `CalorieStorageManager.get_goal` over the sorted
key list. -/
theorem goalDateScan_eq_takeWhile (target : String) :
    ∀ (l : List String) (acc : Option String),
      CalorieStorageManager.goalDateScan target l acc =
        match (l.takeWhile (fun k => strLe k target)).getLast? with
        | some k => some k
        | none => acc
  | [], acc => rfl
  | k :: l, acc => by
    by_cases hk : strLe k target = true
    · rw [CalorieStorageManager.goalDateScan, if_pos hk,
        goalDateScan_eq_takeWhile target l (some k)]
      have : (k :: l).takeWhile (fun k' => strLe k' target) =
          k :: l.takeWhile (fun k' => strLe k' target) :=
        List.takeWhile_cons_of_pos hk
      rw [this]
      cases hlast : (l.takeWhile (fun k' => strLe k' target)).getLast? with
      | none =>
        have : l.takeWhile (fun k' => strLe k' target) = [] :=
          List.getLast?_eq_none_iff.mp hlast
        simp [this]
      | some e =>
        have hcons : (k :: l.takeWhile (fun k' => strLe k' target)).getLast? =
            some e := by
          cases htw : l.takeWhile (fun k' => strLe k' target) with
          | nil => rw [htw] at hlast; exact Option.noConfusion hlast
          | cons x xs => rw [htw] at hlast; rw [List.getLast?_cons_cons]; exact hlast
        rw [hcons]
    · rw [CalorieStorageManager.goalDateScan, if_neg hk]
      have : (k :: l).takeWhile (fun k' => strLe k' target) = [] :=
        List.takeWhile_cons_of_neg (by simpa using hk)
      rw [this]
      rfl

/-! ### Lemmas about the dict model `dmGet` / `dmSet` -/

theorem dmGet_some_mem {α : Type} {m : List (String × α)} {k : String} {v : α}
    (h : dmGet m k = some v) : (k, v) ∈ m := by
  unfold dmGet at h
  cases hf : m.find? (fun p => p.1 = k) with
  | none => rw [hf] at h; exact Option.noConfusion h
  | some p =>
    rw [hf] at h
    obtain rfl : p.2 = v := Option.some.injEq _ _ ▸ h
    have hp := List.find?_some hf
    have hk : p.1 = k := by simpa using hp
    have := List.mem_of_find?_eq_some hf
    rw [← hk]
    simpa using this

theorem dmGet_eq_none_forall {α : Type} {m : List (String × α)} {k : String}
    (h : dmGet m k = none) : ∀ v, (k, v) ∉ m := by
  unfold dmGet at h
  cases hf : m.find? (fun p => p.1 = k) with
  | some p => rw [hf] at h; exact Option.noConfusion h
  | none =>
    intro v hv
    have := List.find?_eq_none.mp hf (k, v) hv
    simp at this

theorem dmGet_isSome_of_mem {α : Type} {m : List (String × α)} {k : String}
    {v : α} (h : (k, v) ∈ m) : ∃ w, dmGet m k = some w := by
  cases hg : dmGet m k with
  | some w => exact ⟨w, rfl⟩
  | none => exact absurd h (dmGet_eq_none_forall hg v)

theorem dmGet_dmSet_self {α : Type} (m : List (String × α)) (k : String)
    (v : α) : dmGet (dmSet m k v) k = some v := by
  induction m with
  | nil => simp [dmSet, dmGet, List.find?]
  | cons p rest ih =>
    obtain ⟨k', v'⟩ := p
    by_cases hk : k' = k
    · simp [dmSet, hk, dmGet, List.find?]
    · simpa [dmSet, hk, dmGet, List.find?] using ih

/-- Writing the same key twice keeps only the last value. -/
theorem dmSet_dmSet {α : Type} (m : List (String × α)) (k : String)
    (v v' : α) : dmSet (dmSet m k v') k v = dmSet m k v := by
  induction m with
  | nil => simp [dmSet]
  | cons p rest ih =>
    obtain ⟨k', w⟩ := p
    by_cases hk : k' = k
    · simp [dmSet, hk]
    · simp [dmSet, hk, ih]

theorem keys_dmSet_subset {α : Type} {m : List (String × α)} {k x : String}
    {v : α} (h : x ∈ (dmSet m k v).map Prod.fst) :
    x ∈ m.map Prod.fst ∨ x = k := by
  induction m with
  | nil => simpa [dmSet] using h
  | cons p rest ih =>
    obtain ⟨k', w⟩ := p
    by_cases hk : k' = k
    · rw [show dmSet ((k', w) :: rest) k v = (k, v) :: rest from by
        simp [dmSet, hk]] at h
      simp only [List.map_cons, List.mem_cons] at h ⊢
      tauto
    · rw [show dmSet ((k', w) :: rest) k v = (k', w) :: dmSet rest k v from by
        simp [dmSet, hk]] at h
      simp only [List.map_cons, List.mem_cons] at h ⊢
      rcases h with h | h
      · tauto
      · rcases ih h with h' | h' <;> tauto

/-- `dmSet` keeps the keys duplicate-free: one value per date. -/
theorem dmSet_keys_nodup {α : Type} {m : List (String × α)} (k : String)
    (v : α) (h : (m.map Prod.fst).Nodup) :
    ((dmSet m k v).map Prod.fst).Nodup := by
  induction m with
  | nil => simp [dmSet]
  | cons p rest ih =>
    obtain ⟨k', w⟩ := p
    simp only [List.map_cons, List.nodup_cons] at h
    obtain ⟨hk', hrest⟩ := h
    by_cases hk : k' = k
    · rw [show dmSet ((k', w) :: rest) k v = (k, v) :: rest from by
        simp [dmSet, hk]]
      simp only [List.map_cons, List.nodup_cons]
      exact ⟨hk ▸ hk', hrest⟩
    · rw [show dmSet ((k', w) :: rest) k v = (k', w) :: dmSet rest k v from by
        simp [dmSet, hk]]
      simp only [List.map_cons, List.nodup_cons]
      refine ⟨fun hmem => ?_, ih hrest⟩
      rcases keys_dmSet_subset hmem with h' | h'
      · exact hk' h'
      · exact hk h'

/-! ### The declarative historical-lookup property (C4) -/

/-- Spec-side definition, following the spec's words: "For a sparse
`date → value` map and query date: return exact match if present; else the
value at the latest date ≤ query date; else the value at the earliest date >
query date; else a caller-supplied default."  Each disjunct carries the guard
that makes the earlier cases inapplicable. -/
def lookupSpec {α : Type} (m : List (String × α)) (d : String) (dflt : α)
    (r : Option α) : Prop :=
  (∃ v, (d, v) ∈ m ∧ r = some v) ∨
  ((∀ v, (d, v) ∉ m) ∧
    ∃ k v, (k, v) ∈ m ∧ strLe k d = true ∧
      (∀ k' v', (k', v') ∈ m → strLe k' d = true → strLe k' k = true) ∧
      r = some v) ∨
  ((∀ k v, (k, v) ∈ m → strLe k d = false) ∧
    ∃ k v, (k, v) ∈ m ∧
      (∀ k' v', (k', v') ∈ m → strLe k k' = true) ∧ r = some v) ∨
  (m = [] ∧ r = some dflt)

/-- The shared fallback computation of `get_weight` / `get_body_fat_pct`
satisfies the declarative lookup property.  The result `r` is supplied
through one equation per code path. -/
theorem lookup_core {α : Type} (m : List (String × α)) (d : String) (dflt : α)
    (r : Option α)
    (h1 : ∀ w, dmGet m d = some w → r = some w)
    (h2 : m = [] → r = some dflt)
    (h3 : ∀ v, dmGet m d = none → ¬ m = [] →
      entryScan d (sortByKey m) none = some v → r = some v)
    (h4 : ∀ e rest, dmGet m d = none → ¬ m = [] →
      entryScan d (sortByKey m) none = none → sortByKey m = e :: rest →
      r = some e.2) :
    lookupSpec m d dflt r := by
  cases hg : dmGet m d with
  | some w => exact Or.inl ⟨w, dmGet_some_mem hg, h1 w hg⟩
  | none =>
    have hnot := dmGet_eq_none_forall hg
    by_cases hm : m = []
    · exact Or.inr (Or.inr (Or.inr ⟨hm, h2 hm⟩))
    · have hperm := sortByKey_perm m
      have hpair := sortByKey_pairwise m
      have hscan := entryScan_eq_takeWhile d (sortByKey m) (none : Option α)
      rw [takeWhile_eq_filter_of_pairwise (fun p => strLe p.1 d) keyLe
        (fun x y hxy hyd =>
          strLe_trans (show strLe x.1 y.1 = true from hxy) hyd) _ hpair]
        at hscan
      cases hlast : ((sortByKey m).filter fun p => strLe p.1 d).getLast? with
      | some e =>
        rw [hlast] at hscan
        have hr : r = some e.2 := h3 e.2 hg hm hscan
        refine Or.inr (Or.inl ⟨hnot, e.1, e.2, ?_, ?_, ?_, hr⟩)
        · have hefil := List.mem_of_getLast?_eq_some hlast
          have hee : e ∈ sortByKey m := List.mem_of_mem_filter hefil
          simpa using hperm.mem_iff.mp hee
        · have hefil := List.mem_of_getLast?_eq_some hlast
          simpa using List.of_mem_filter hefil
        · intro k' v' hmem hk'd
          have hsortmem : (k', v') ∈ sortByKey m := hperm.mem_iff.mpr hmem
          have hfmem : (k', v') ∈ (sortByKey m).filter fun p => strLe p.1 d :=
            List.mem_filter.mpr ⟨hsortmem, by simpa using hk'd⟩
          have hpairfil :
              ((sortByKey m).filter fun p => strLe p.1 d).Pairwise keyLe :=
            List.Pairwise.sublist (List.filter_sublist _) hpair
          rcases mem_rel_getLast_of_pairwise keyLe _ hpairfil (k', v') hfmem e
              hlast with heq | hrel
          · subst heq; exact strLe_refl k'
          · exact hrel
      | none =>
        rw [hlast] at hscan
        have hfil : ((sortByKey m).filter fun p => strLe p.1 d) = [] :=
          List.getLast?_eq_none_iff.mp hlast
        cases hsort : sortByKey m with
        | nil =>
          exact absurd ((hsort ▸ hperm).symm.eq_nil) hm
        | cons e rest =>
          have hr : r = some e.2 := h4 e rest hg hm hscan hsort
          refine Or.inr (Or.inr (Or.inl ⟨?_, e.1, e.2, ?_, ?_⟩))
          · intro k v hmem
            have hsmem : (k, v) ∈ sortByKey m := hperm.mem_iff.mpr hmem
            by_contra hne
            have : (k, v) ∈ (sortByKey m).filter fun p => strLe p.1 d :=
              List.mem_filter.mpr ⟨hsmem, by simpa using hne⟩
            rw [hfil] at this
            exact List.not_mem_nil _ this
          · have : e ∈ sortByKey m := hsort ▸ List.mem_cons_self e rest
            simpa using hperm.mem_iff.mp this
          · refine ⟨fun k' v' hmem => ?_, hr⟩
            have hsmem : (k', v') ∈ sortByKey m := hperm.mem_iff.mpr hmem
            rcases head_rel_mem_of_pairwise keyLe e rest (hsort ▸ hpair) (k', v')
                (hsort ▸ hsmem) with heq | hrel
            · rw [← heq]; exact strLe_refl k'
            · exact hrel

namespace CalorieTrackerUser

/-- `get_weight` satisfies the declarative lookup property with the profile
starting weight as default. -/
theorem get_weight_lookup (u : CalorieTrackerUser) (d : String)
    (hd : dateOnly d = d) :
    lookupSpec u.storage.weights d (u.starting_weight : ℚ) (u.get_weight d) := by
  apply lookup_core
  · intro w hw
    unfold get_weight CalorieStorageManager.get_weight
    rw [hd]
    dsimp only
    rw [hw]
  · intro hm
    unfold get_weight CalorieStorageManager.get_weight
      CalorieStorageManager.get_all_weights
    rw [hd]
    simp [hm, dmGet]
  · intro v hg hm hscan
    unfold get_weight CalorieStorageManager.get_weight
      CalorieStorageManager.get_all_weights
    rw [hd]
    dsimp only
    rw [hg]
    dsimp only
    rw [if_neg hm, hscan]
  · intro e rest hg hm hscan hsort
    unfold get_weight CalorieStorageManager.get_weight
      CalorieStorageManager.get_all_weights
    rw [hd]
    dsimp only
    rw [hg]
    dsimp only
    rw [if_neg hm, hscan, hsort]

/-- `get_body_fat_pct` satisfies the declarative lookup property with the
profile body-fat default. -/
theorem get_body_fat_pct_lookup (u : CalorieTrackerUser) (d : String)
    (hd : dateOnly d = d) :
    lookupSpec u.storage.body_fat_pcts d u.body_fat_pct
      (u.get_body_fat_pct d) := by
  apply lookup_core
  · intro w hw
    unfold get_body_fat_pct CalorieStorageManager.get_body_fat_pct
    rw [hd]
    dsimp only
    rw [hw]
  · intro hm
    unfold get_body_fat_pct CalorieStorageManager.get_body_fat_pct
      CalorieStorageManager.get_all_body_fat_pcts
    rw [hd]
    simp [hm, dmGet]
  · intro v hg hm hscan
    unfold get_body_fat_pct CalorieStorageManager.get_body_fat_pct
      CalorieStorageManager.get_all_body_fat_pcts
    rw [hd]
    dsimp only
    rw [hg]
    dsimp only
    rw [if_neg hm, hscan]
  · intro e rest hg hm hscan hsort
    unfold get_body_fat_pct CalorieStorageManager.get_body_fat_pct
      CalorieStorageManager.get_all_body_fat_pcts
    rw [hd]
    dsimp only
    rw [hg]
    dsimp only
    rw [if_neg hm, hscan, hsort]

end CalorieTrackerUser

/-- Spec-side definition for goal lookup, following the spec's words: exact
match, else most recent goal on or before the date, else the earliest goal,
else `None`; the returned goal carries its `start_date`. -/
def goalLookupSpec (m : List (String × Goal)) (d : String)
    (r : Option GoalRes) : Prop :=
  (∃ g, (d, g) ∈ m ∧ r = some ⟨g.goal_type, g.goal_value, d⟩) ∨
  ((∀ g, (d, g) ∉ m) ∧
    ∃ k g, (k, g) ∈ m ∧ strLe k d = true ∧
      (∀ k' g', (k', g') ∈ m → strLe k' d = true → strLe k' k = true) ∧
      r = some ⟨g.goal_type, g.goal_value, k⟩) ∨
  ((∀ k g, (k, g) ∈ m → strLe k d = false) ∧
    ∃ k g, (k, g) ∈ m ∧ (∀ k' g', (k', g') ∈ m → strLe k k' = true) ∧
      r = some ⟨g.goal_type, g.goal_value, k⟩) ∨
  (m = [] ∧ r = none)

/-- `CalorieStorageManager.get_goal` satisfies the declarative goal-lookup
property. -/
theorem get_goal_lookup (s : CalorieStorageManager) (d : String) :
    goalLookupSpec s.goals d (s.get_goal d) := by
  by_cases hm : s.goals = []
  · have hr : s.get_goal d = none := by
      unfold CalorieStorageManager.get_goal
      rw [if_pos hm]
    exact Or.inr (Or.inr (Or.inr ⟨hm, hr⟩))
  · cases hg : dmGet s.goals d with
    | some g =>
      have hr : s.get_goal d = some ⟨g.goal_type, g.goal_value, d⟩ := by
        unfold CalorieStorageManager.get_goal
        rw [if_neg hm]
        dsimp only
        rw [hg]
      exact Or.inl ⟨g, dmGet_some_mem hg, hr⟩
    | none =>
      have hnot := dmGet_eq_none_forall hg
      have hperm := sortByKey_perm s.goals
      have hpair := sortByKey_pairwise s.goals
      have hkeysPair :
          ((sortByKey s.goals).map Prod.fst).Pairwise
            (fun a b => strLe a b = true) :=
        List.pairwise_map.mpr
          (hpair.imp (fun h => (h : strLe _ _ = true)))
      have hscan := goalDateScan_eq_takeWhile d
        ((sortByKey s.goals).map Prod.fst) (none : Option String)
      rw [takeWhile_eq_filter_of_pairwise (fun k => strLe k d)
        (fun a b => strLe a b = true)
        (fun x y hxy hyd => strLe_trans hxy hyd) _ hkeysPair] at hscan
      cases hlast :
          (((sortByKey s.goals).map Prod.fst).filter fun k => strLe k d).getLast?
          with
      | some kk =>
        rw [hlast] at hscan
        have hkk_fil := List.mem_of_getLast?_eq_some hlast
        have hkk_keys : kk ∈ (sortByKey s.goals).map Prod.fst :=
          List.mem_of_mem_filter hkk_fil
        obtain ⟨p, hpmem, hpk⟩ := List.mem_map.mp hkk_keys
        have hpm : (kk, p.2) ∈ s.goals := by
          rw [← hpk]
          exact hperm.mem_iff.mp hpmem
        obtain ⟨g, hgget⟩ := dmGet_isSome_of_mem hpm
        have hr : s.get_goal d = some ⟨g.goal_type, g.goal_value, kk⟩ := by
          unfold CalorieStorageManager.get_goal
          rw [if_neg hm]
          dsimp only
          rw [hg]
          dsimp only
          rw [hscan]
          dsimp only
          rw [hgget]
        refine Or.inr (Or.inl ⟨hnot, kk, g, dmGet_some_mem hgget, ?_, ?_, hr⟩)
        · simpa using List.of_mem_filter hkk_fil
        · intro k' g' hmem hk'd
          have hk'keys : k' ∈ (sortByKey s.goals).map Prod.fst :=
            List.mem_map.mpr ⟨(k', g'), hperm.mem_iff.mpr hmem, rfl⟩
          have hk'fil :
              k' ∈ ((sortByKey s.goals).map Prod.fst).filter
                fun k => strLe k d :=
            List.mem_filter.mpr ⟨hk'keys, by simpa using hk'd⟩
          have hfilPair :
              (((sortByKey s.goals).map Prod.fst).filter
                fun k => strLe k d).Pairwise (fun a b => strLe a b = true) :=
            List.Pairwise.sublist (List.filter_sublist _) hkeysPair
          rcases mem_rel_getLast_of_pairwise _ _ hfilPair k' hk'fil kk hlast
              with heq | hrel
          · subst heq; exact strLe_refl k'
          · exact hrel
      | none =>
        rw [hlast] at hscan
        have hfil :
            (((sortByKey s.goals).map Prod.fst).filter fun k => strLe k d)
              = [] :=
          List.getLast?_eq_none_iff.mp hlast
        cases hkeys : (sortByKey s.goals).map Prod.fst with
        | nil =>
          have : sortByKey s.goals = [] := List.map_eq_nil_iff.mp hkeys
          exact absurd ((this ▸ hperm).symm.eq_nil) hm
        | cons fd rest =>
          have hfd_keys : fd ∈ (sortByKey s.goals).map Prod.fst :=
            hkeys ▸ List.mem_cons_self fd rest
          obtain ⟨p, hpmem, hpk⟩ := List.mem_map.mp hfd_keys
          have hpm : (fd, p.2) ∈ s.goals := by
            rw [← hpk]
            exact hperm.mem_iff.mp hpmem
          obtain ⟨g, hgget⟩ := dmGet_isSome_of_mem hpm
          have hr : s.get_goal d = some ⟨g.goal_type, g.goal_value, fd⟩ := by
            unfold CalorieStorageManager.get_goal
            rw [if_neg hm]
            dsimp only
            rw [hg]
            dsimp only
            rw [hscan]
            dsimp only
            rw [hkeys]
            dsimp only
            rw [hgget]
          refine Or.inr (Or.inr (Or.inl
            ⟨?_, fd, g, dmGet_some_mem hgget, ?_, hr⟩))
          · intro k g' hmem
            by_contra hne
            have hkkeys : k ∈ (sortByKey s.goals).map Prod.fst :=
              List.mem_map.mpr ⟨(k, g'), hperm.mem_iff.mpr hmem, rfl⟩
            have : k ∈ ((sortByKey s.goals).map Prod.fst).filter
                fun k' => strLe k' d :=
              List.mem_filter.mpr ⟨hkkeys, by simpa using hne⟩
            rw [hfil] at this
            exact List.not_mem_nil _ this
          · intro k' g' hmem
            have hk'keys : k' ∈ (sortByKey s.goals).map Prod.fst :=
              List.mem_map.mpr ⟨(k', g'), hperm.mem_iff.mpr hmem, rfl⟩
            rcases head_rel_mem_of_pairwise _ fd rest (hkeys ▸ hkeysPair) k'
                (hkeys ▸ hk'keys) with heq | hrel
            · rw [heq]; exact strLe_refl fd
            · exact hrel

/-! ### Concrete fixtures used by witnesses and counterexamples -/

/-- An empty storage backend. -/
def stEmpty : CalorieStorageManager := ⟨[], [], [], [], []⟩

/-- A kg-unit profile: male, 180 cm, starting weight 80, born 1994, NEAT 1.2,
nothing logged. -/
def uKg80 : CalorieTrackerUser :=
  { storage := stEmpty, spoken_name := "alex", goal_value := 0,
    goal_type := none, starting_weight := 80, goal_weight := 75,
    weight_unit := "kg", birth_year := some 1994, sex := some "male",
    height := some 180, height_unit := "cm", body_fat_pct := 0, neat := 1.2 }

/-- `uKg80` with a `fixed_deficit 100` goal effective 2024-06-01. -/
def uDeficit : CalorieTrackerUser :=
  { uKg80 with storage :=
      { stEmpty with goals := [("2024-06-01", ⟨"fixed_deficit", 100⟩)] } }

/-- A kg-unit profile (weight 100, NEAT 1) with a `variable_cut 1.0` goal. -/
def uCutKg : CalorieTrackerUser :=
  { uKg80 with
    starting_weight := 100, neat := 1,
    storage :=
      { stEmpty with goals := [("2024-06-01", ⟨"variable_cut", 1⟩)] } }

/-- An lbs-unit profile (weight 180, NEAT 2500/2667 so that the BMR baseline
is exactly 2000) with a `variable_cut 1.0` goal. -/
def uCutLbs : CalorieTrackerUser :=
  { uKg80 with
    starting_weight := 180, weight_unit := "lbs", neat := 2500 / 2667,
    storage :=
      { stEmpty with goals := [("2024-06-01", ⟨"variable_cut", 1⟩)] } }

/-- An lbs-unit profile (weight 180, NEAT 1.2) with an unrecognized
`variable_x 1.0` goal. -/
def uVarX : CalorieTrackerUser :=
  { uKg80 with
    starting_weight := 180, weight_unit := "lbs",
    storage :=
      { stEmpty with goals := [("2024-06-01", ⟨"variable_x", 1⟩)] } }

/-- Day number of 2024-06-05 (a Wednesday). -/
theorem daysOfIso_jun5 : daysOfIso "2024-06-05" = 19879 := by decide

/-- `uKg80` has BMR 2098.0 on 2024-06-05: no body-fat data is logged, the
0.0 default applies, and Katch-McArdle gives `370 + 21.6 × 80`. -/
theorem uKg80_bmr : uKg80.calculate_bmr "2024-06-05" = some 2098 := by
  rw [CalorieTrackerUser.calculate_bmr_bodyfat uKg80 "2024-06-05" "male" rfl
    (by decide) 180 (by decide) (by decide) 80 (by decide) (by decide) 0
    (by decide)]
  rw [show uKg80.bmrWeightKg 80 = (80 : ℚ) from rfl]
  norm_num [round1, pyRoundInt]

/-- The ISO string of day 19879. -/
theorem isoOfDays_19879 : isoOfDays 19879 = "2024-06-05" := by decide

theorem uDeficit_bmr : uDeficit.calculate_bmr "2024-06-05" = some 2098 := by
  rw [CalorieTrackerUser.calculate_bmr_bodyfat uDeficit "2024-06-05" "male" rfl
    (by decide) 180 (by decide) (by decide) 80 (by decide) (by decide) 0
    (by decide)]
  rw [show uDeficit.bmrWeightKg 80 = (80 : ℚ) from rfl]
  norm_num [round1, pyRoundInt]

theorem uCutKg_bmr : uCutKg.calculate_bmr "2024-06-05" = some 2530 := by
  rw [CalorieTrackerUser.calculate_bmr_bodyfat uCutKg "2024-06-05" "male" rfl
    (by decide) 180 (by decide) (by decide) 100 (by decide) (by decide) 0
    (by decide)]
  rw [show uCutKg.bmrWeightKg 100 = (100 : ℚ) from rfl]
  norm_num [round1, pyRoundInt]

theorem uCutLbs_bmr : uCutLbs.calculate_bmr "2024-06-05" = some 2133.6 := by
  rw [CalorieTrackerUser.calculate_bmr_bodyfat uCutLbs "2024-06-05" "male" rfl
    (by decide) 180 (by decide) (by decide) 180 (by decide) (by decide) 0
    (by decide)]
  rw [show uCutLbs.bmrWeightKg 180 = (180 : ℚ) * 0.453592 from rfl]
  norm_num [round1, pyRoundInt]

theorem uVarX_bmr : uVarX.calculate_bmr "2024-06-05" = some 2133.6 := by
  rw [CalorieTrackerUser.calculate_bmr_bodyfat uVarX "2024-06-05" "male" rfl
    (by decide) 180 (by decide) (by decide) 180 (by decide) (by decide) 0
    (by decide)]
  rw [show uVarX.bmrWeightKg 180 = (180 : ℚ) * 0.453592 from rfl]
  norm_num [round1, pyRoundInt]

theorem uDeficit_daily :
    uDeficit.calculate_daily_goal_calories "2024-06-05" = 2417 := by
  rw [CalorieTrackerUser.daily_goal_fixed_deficit uDeficit "2024-06-05"
    ⟨"fixed_deficit", 100, "2024-06-01"⟩ (by decide) rfl (by norm_num) 2098
    uDeficit_bmr]
  rw [show uDeficit.neat = (1.2 : ℚ) from rfl]
  norm_num [pyInt]

theorem uDeficit_remaining :
    uDeficit.calculate_remaining_calories "2024-06-05" = 2417 := by
  rw [CalorieTrackerUser.remaining_fixed_deficit uDeficit "2024-06-05"
    ⟨"fixed_deficit", 100, "2024-06-01"⟩ (by decide) rfl (by norm_num) 2098
    uDeficit_bmr]
  rw [show uDeficit.neat = (1.2 : ℚ) from rfl,
    show (uDeficit.get_log "2024-06-05").calories.1 = 0 from rfl,
    show (uDeficit.get_log "2024-06-05").calories.2 = 0 from rfl]
  norm_num [pyInt]

theorem uDeficit_weekly :
    (uDeficit.weeklyDay false 19879).2.daily_calorie_goal = 2418 := by
  rw [CalorieTrackerUser.weeklyDay_fixed_deficit uDeficit false 19879
    ⟨"fixed_deficit", 100, "2024-06-01"⟩ (by rw [isoOfDays_19879]; decide) rfl
    2098 (by rw [isoOfDays_19879]; exact uDeficit_bmr) (by norm_num)]
  rw [show uDeficit.neat = (1.2 : ℚ) from rfl]
  norm_num [pyRoundInt]

theorem uCutKg_daily :
    uCutKg.calculate_daily_goal_calories "2024-06-05" = 1427 := by
  rw [CalorieTrackerUser.daily_goal_variable_cut uCutKg "2024-06-05"
    ⟨"variable_cut", 1, "2024-06-01"⟩ (by decide) rfl (by norm_num) 2530
    uCutKg_bmr 100 (by decide)]
  rw [show uCutKg.neat = (1 : ℚ) from rfl,
    show uCutKg.get_weight_unit = "kg" from rfl]
  norm_num [pyInt]

theorem uCutKg_weekly :
    (uCutKg.weeklyDay false 19879).2.daily_calorie_goal = 1430 := by
  rw [CalorieTrackerUser.weeklyDay_variable_cut uCutKg false 19879
    ⟨"variable_cut", 1, "2024-06-01"⟩ (by rw [isoOfDays_19879]; decide) rfl
    2530 (by rw [isoOfDays_19879]; exact uCutKg_bmr) (by norm_num) 100
    (by rw [isoOfDays_19879]; decide)]
  rw [show uCutKg.neat = (1 : ℚ) from rfl,
    show uCutKg.get_weight_unit = "kg" from rfl]
  norm_num [pyRoundInt]

theorem uVarX_daily :
    uVarX.calculate_daily_goal_calories "2024-06-05" = 1660 := by
  rw [CalorieTrackerUser.daily_goal_variable_other uVarX "2024-06-05"
    ⟨"variable_x", 1, "2024-06-01"⟩ (by decide) (by decide) (by decide)
    (by decide) (by decide) (by norm_num) 2133.6 uVarX_bmr 180 (by decide)]
  rw [show uVarX.neat = (1.2 : ℚ) from rfl,
    show (if uVarX.get_weight_unit = "kg" then (180 : ℚ) * 2.20462 else 180)
      = 180 from rfl]
  norm_num [pyInt]

/-! ### Claim theorems -/

/-- C1: at the spec's own example (male, 180 cm, 80 kg, birth year 30 years
before the query date, no body-fat data, BMI ≤ 25), `calculate_bmr` does not
return the Mifflin-St Jeor value 1780.0: `get_body_fat_pct` substitutes the
profile default 0.0 for the missing body-fat data, so the Katch-McArdle tier
fires with lean mass equal to the full body weight and the result is 2098.0.
The Mifflin fallback documented in the method's own docstring is unreachable.
-/
theorem C1_code_divergence :
    uKg80.calculate_bmr "2024-06-05" = some 2098 ∧
    parseYear "2024-06-05" - 1994 = 30 ∧
    10 * (80 : ℚ) + 6.25 * 180 - 5 * 30 + 5 = 1780 ∧
    ¬ (2098 : ℚ) = 1780 := by
  refine ⟨uKg80_bmr, by decide, by norm_num, by norm_num⟩

/-- C2, counterexample: for a kg-unit profile (weight 100 kg, BMR baseline
2530), the claim's formula with 7700 kcal/kg gives a daily target of
`2530 − 100 × 1/100 × 7700/7 = 1430`, but `calculate_daily_goal_calories`
returns 1427 (it converts to pounds with × 2.20462 and uses 3500 kcal/lb,
then truncates). -/
theorem C2_counterexample :
    uCutKg.calculate_bmr "2024-06-05" = some 2530 ∧
    uCutKg.neat = 1 ∧
    uCutKg.get_weight "2024-06-05" = some 100 ∧
    (2530 : ℚ) * 1 - 100 * 1 / 100 * 7700 / 7 = 1430 ∧
    uCutKg.calculate_daily_goal_calories "2024-06-05" = 1427 ∧
    ¬ uCutKg.calculate_daily_goal_calories "2024-06-05" = 1430 := by
  refine ⟨uCutKg_bmr, rfl, by decide, by norm_num, uCutKg_daily, ?_⟩
  rw [uCutKg_daily]
  norm_num

/-- C2, amended: for `variable_cut` / `variable_bulk` goals the weekly
summary resolves the daily target as `bmr_and_neat ∓ weight × gv/100 × c/7`
with `c = 7700` kcal/kg for kg profiles (3500 kcal/lb otherwise), rounded to
nearest; `calculate_daily_goal_calories` instead converts the weight to
pounds (`× 2.20462`), always applies 3500 kcal/lb, and truncates toward
zero. -/
theorem C2_amended_formulas (u : CalorieTrackerUser) (m : Bool) (z : ℤ)
    (d : String) (g : GoalRes) (b w : ℚ)
    (hdz : d = isoOfDays z)
    (hg : u.get_goal d = some g) (hv : ¬ g.goal_value = 0)
    (hb : u.calculate_bmr d = some b) (hb0 : ¬ b = 0)
    (hw : u.get_weight d = some w) :
    (g.goal_type = "variable_cut" →
      u.calculate_daily_goal_calories d =
        pyInt (b * u.neat -
          (if u.get_weight_unit = "kg" then w * 2.20462 else w) *
            g.goal_value / 100 * 3500 / 7)) ∧
    (g.goal_type = "variable_bulk" →
      u.calculate_daily_goal_calories d =
        pyInt (b * u.neat +
          (if u.get_weight_unit = "kg" then w * 2.20462 else w) *
            g.goal_value / 100 * 3500 / 7)) ∧
    (g.goal_type = "variable_cut" →
      (u.weeklyDay m z).2.daily_calorie_goal =
        pyRoundInt ((pyRoundInt (b * u.neat) : ℚ) -
          w * (g.goal_value / 100) / 7 *
            (if u.get_weight_unit = "kg" then 7700 else 3500))) ∧
    (g.goal_type = "variable_bulk" →
      (u.weeklyDay m z).2.daily_calorie_goal =
        pyRoundInt ((pyRoundInt (b * u.neat) : ℚ) +
          w * (g.goal_value / 100) / 7 *
            (if u.get_weight_unit = "kg" then 7700 else 3500))) := by
  subst hdz
  refine ⟨fun ht => ?_, fun ht => ?_, fun ht => ?_, fun ht => ?_⟩
  · exact CalorieTrackerUser.daily_goal_variable_cut u _ g hg ht hv b hb w hw
  · exact CalorieTrackerUser.daily_goal_variable_bulk u _ g hg ht hv b hb w hw
  · exact CalorieTrackerUser.weeklyDay_variable_cut u m z g hg ht b hb hb0 w hw
  · exact CalorieTrackerUser.weeklyDay_variable_bulk u m z g hg ht b hb hb0 w hw

/-- C2, witness: the lbs example of the spec.  Weight 180 lbs, goal
`variable_cut 1.0`, BMR baseline exactly 2000: the daily target is
`2000 − 180 × 1/100 × 3500/7 = 1100`. -/
theorem C2_witness :
    uCutLbs.get_goal (isoOfDays 19879) =
      some ⟨"variable_cut", 1, "2024-06-01"⟩ ∧
    uCutLbs.calculate_bmr (isoOfDays 19879) = some 2133.6 ∧
    uCutLbs.get_weight (isoOfDays 19879) = some 180 ∧
    uCutLbs.calculate_bmr (isoOfDays 19879) = some 2133.6 ∧
    uCutLbs.neat = 2500 / 2667 ∧
    uCutLbs.calculate_daily_goal_calories (isoOfDays 19879) = 1100 := by
  have hg : uCutLbs.get_goal (isoOfDays 19879) =
      some ⟨"variable_cut", 1, "2024-06-01"⟩ := by
    rw [isoOfDays_19879]; decide
  have hb : uCutLbs.calculate_bmr (isoOfDays 19879) = some 2133.6 := by
    rw [isoOfDays_19879]; exact uCutLbs_bmr
  have hw : uCutLbs.get_weight (isoOfDays 19879) = some 180 := by
    rw [isoOfDays_19879]; decide
  have h := C2_amended_formulas uCutLbs false 19879 (isoOfDays 19879)
    ⟨"variable_cut", 1, "2024-06-01"⟩ 2133.6 180 rfl hg (by norm_num) hb
    (by norm_num) hw
  refine ⟨hg, hb, hw, hb, rfl, ?_⟩
  rw [h.1 rfl]
  rw [show uCutLbs.neat = (2500 / 2667 : ℚ) from rfl,
    show (if uCutLbs.get_weight_unit = "kg" then (180 : ℚ) * 2.20462 else 180)
      = 180 from rfl]
  norm_num [pyInt]

/-- C3, counterexample: with BMR 2098.0, NEAT 1.2 and a `fixed_deficit 100`
goal, the exact daily target is 2417.6; rounded to the nearest integer that
is 2418 (which `get_weekly_summary` indeed produces), but
`calculate_daily_goal_calories` and `calculate_remaining_calories` return
2417: they truncate with `int(...)` instead of rounding. -/
theorem C3_counterexample :
    uDeficit.calculate_bmr "2024-06-05" = some 2098 ∧
    uDeficit.neat = 1.2 ∧
    pyRoundInt ((2098 : ℚ) * 1.2 - 100) = 2418 ∧
    uDeficit.calculate_daily_goal_calories "2024-06-05" = 2417 ∧
    uDeficit.calculate_remaining_calories "2024-06-05" = 2417 ∧
    (uDeficit.weeklyDay false 19879).2.daily_calorie_goal = 2418 ∧
    uDeficit.weeklyDay false 19879 ∈
      uDeficit.get_weekly_summary "2024-06-05" false ∧
    ¬ (2417 : ℤ) = 2418 := by
  refine ⟨uDeficit_bmr, rfl, by norm_num [pyRoundInt], uDeficit_daily,
    uDeficit_remaining, uDeficit_weekly, ?_, by norm_num⟩
  exact CalorieTrackerUser.weeklyDay_mem_summary uDeficit false "2024-06-05"
    19879 (by decide)

/-- C3, amended: for a `fixed_deficit` goal, `calculate_daily_goal_calories`
and `calculate_remaining_calories` truncate the exact target toward zero
(Python `int()`), while the weekly summary's daily goal is rounded to the
nearest integer (as is its `bmr_and_neat` intermediate). -/
theorem C3_amended_rounding (u : CalorieTrackerUser) (z : ℤ) (m : Bool)
    (d : String) (g : GoalRes) (b : ℚ)
    (hdz : d = isoOfDays z)
    (hg : u.get_goal d = some g) (ht : g.goal_type = "fixed_deficit")
    (hv : ¬ g.goal_value = 0)
    (hb : u.calculate_bmr d = some b) (hb0 : ¬ b = 0) :
    u.calculate_daily_goal_calories d = pyInt (b * u.neat - g.goal_value) ∧
    u.calculate_remaining_calories d =
      pyInt (b * u.neat - g.goal_value -
        (((u.get_log d).calories.1 - (u.get_log d).calories.2 : ℤ) : ℚ)) ∧
    (u.weeklyDay m z).2.daily_calorie_goal =
      pyRoundInt ((pyRoundInt (b * u.neat) : ℚ) - g.goal_value) := by
  subst hdz
  exact ⟨CalorieTrackerUser.daily_goal_fixed_deficit u _ g hg ht hv b hb,
    CalorieTrackerUser.remaining_fixed_deficit u _ g hg ht hv b hb,
    CalorieTrackerUser.weeklyDay_fixed_deficit u m z g hg ht b hb hb0⟩

/-- C3, witness: the amended statement at the `uDeficit` fixture. -/
theorem C3_witness :
    uDeficit.get_goal (isoOfDays 19879) =
      some ⟨"fixed_deficit", 100, "2024-06-01"⟩ ∧
    uDeficit.calculate_bmr (isoOfDays 19879) = some 2098 ∧
    uDeficit.calculate_daily_goal_calories (isoOfDays 19879) =
      pyInt ((2098 : ℚ) * uDeficit.neat - 100) ∧
    (uDeficit.weeklyDay false 19879).2.daily_calorie_goal =
      pyRoundInt ((pyRoundInt ((2098 : ℚ) * uDeficit.neat) : ℚ) - 100) := by
  have hg : uDeficit.get_goal (isoOfDays 19879) =
      some ⟨"fixed_deficit", 100, "2024-06-01"⟩ := by
    rw [isoOfDays_19879]; decide
  have hb : uDeficit.calculate_bmr (isoOfDays 19879) = some 2098 := by
    rw [isoOfDays_19879]; exact uDeficit_bmr
  have h := C3_amended_rounding uDeficit 19879 false (isoOfDays 19879)
    ⟨"fixed_deficit", 100, "2024-06-01"⟩ 2098 rfl hg rfl (by norm_num) hb
    (by norm_num)
  exact ⟨hg, hb, h.1, h.2.2⟩

/-- A profile with sparse history: weights logged on 2024-06-03 and
2024-06-10, a body-fat sample on 2024-06-04, a goal effective 2024-06-01. -/
def uHist : CalorieTrackerUser :=
  { uKg80 with storage :=
      { stEmpty with
        weights := [("2024-06-10", 81), ("2024-06-03", 82)],
        body_fat_pcts := [("2024-06-04", 30)],
        goals := [("2024-06-01", ⟨"fixed_intake", 2000⟩)] } }

/-- C4: every historical lookup (weights with the starting-weight default,
body-fat percentages with the profile default, goals with `None`) satisfies
the declarative nearest-prior / earliest-after / default property. -/
theorem C4_historical_lookup (u : CalorieTrackerUser) (d : String)
    (hd : dateOnly d = d) :
    lookupSpec u.storage.weights d (u.starting_weight : ℚ) (u.get_weight d) ∧
    lookupSpec u.storage.body_fat_pcts d u.body_fat_pct
      (u.get_body_fat_pct d) ∧
    goalLookupSpec u.storage.goals d (u.storage.get_goal d) :=
  ⟨CalorieTrackerUser.get_weight_lookup u d hd,
   CalorieTrackerUser.get_body_fat_pct_lookup u d hd,
   get_goal_lookup u.storage d⟩

/-- C4, witness: the lookup property at the `uHist` fixture on 2024-06-05. -/
theorem C4_witness :
    dateOnly "2024-06-05" = "2024-06-05" ∧
    (lookupSpec uHist.storage.weights "2024-06-05"
        (uHist.starting_weight : ℚ) (uHist.get_weight "2024-06-05") ∧
      lookupSpec uHist.storage.body_fat_pcts "2024-06-05" uHist.body_fat_pct
        (uHist.get_body_fat_pct "2024-06-05") ∧
      goalLookupSpec uHist.storage.goals "2024-06-05"
        (uHist.storage.get_goal "2024-06-05")) ∧
    uHist.get_weight "2024-06-05" = some 82 ∧
    uHist.get_body_fat_pct "2024-06-05" = some 30 ∧
    uHist.storage.get_goal "2024-06-05" =
      some ⟨"fixed_intake", 2000, "2024-06-01"⟩ :=
  ⟨by decide, C4_historical_lookup uHist "2024-06-05" (by decide),
   by decide, by decide, by decide⟩

/-- C5: with sex, height and weight present and a body-fat percentage `bf`
coming from `get_body_fat_pct`, `calculate_bmr` returns the Cunningham value
`500 + 22 × lean_body_mass` when `bf > 25` and the Katch-McArdle value
`370 + 21.6 × lean_body_mass` when `bf ≤ 25`, with
`lean_body_mass = weight_kg × (1 − bf/100)`, rounded to one decimal. -/
theorem C5_bodyfat_tiers (u : CalorieTrackerUser) (d : String)
    (s : String) (hs : u.sex = some s) (hs0 : ¬ s = "")
    (hc : ℚ) (hhc : u.get_height_in_cm = some hc) (hc0 : ¬ hc = 0)
    (w : ℚ) (hw : u.get_weight d = some w) (hw0 : ¬ w = 0)
    (bf : ℚ) (hbf : u.get_body_fat_pct d = some bf) :
    (25 < bf → u.calculate_bmr d =
      some (round1 (500 + 22 * (u.bmrWeightKg w * (1 - bf / 100))))) ∧
    (bf ≤ 25 → u.calculate_bmr d =
      some (round1 (370 + 21.6 * (u.bmrWeightKg w * (1 - bf / 100))))) := by
  have h := CalorieTrackerUser.calculate_bmr_bodyfat u d s hs hs0 hc hhc hc0
    w hw hw0 bf hbf
  constructor
  · intro h25
    rw [h, if_pos h25]
  · intro h25
    rw [h, if_neg (not_lt.mpr h25)]

/-- A kg profile of weight 90 with a logged body fat of 30%. -/
def uBf30 : CalorieTrackerUser :=
  { uKg80 with
    starting_weight := 90,
    storage := { stEmpty with body_fat_pcts := [("2024-06-05", 30)] } }

/-- C5, witness: at 30% body fat and 90 kg, Cunningham gives
`500 + 22 × 63 = 1886.0`. -/
theorem C5_witness :
    uBf30.get_body_fat_pct "2024-06-05" = some 30 ∧
    uBf30.get_weight "2024-06-05" = some 90 ∧
    uBf30.calculate_bmr "2024-06-05" = some 1886 := by
  have h := C5_bodyfat_tiers uBf30 "2024-06-05" "male" rfl (by decide) 180
    (by decide) (by decide) 90 (by decide) (by decide) 30 (by decide)
  refine ⟨by decide, by decide, ?_⟩
  rw [h.1 (by norm_num)]
  rw [show uBf30.bmrWeightKg 90 = (90 : ℚ) from rfl]
  norm_num [round1, pyRoundInt]

/-- C6: `calculate_bmr` returns `None` (raising nothing) whenever sex,
height or weight is missing in the Python-falsy sense, and likewise in the
tier-3/4 regime (body fat unavailable) when sex is neither "male" nor
"female" — a regime that `get_body_fat_pct`'s totality makes unreachable. -/
theorem C6_returns_none (u : CalorieTrackerUser) (d : String)
    (h : (u.sex = none ∨ u.sex = some "" ∨
          u.get_height_in_cm = none ∨ u.get_height_in_cm = some 0 ∨
          u.get_weight d = none ∨ u.get_weight d = some 0) ∨
         (u.get_body_fat_pct d = none ∧
          ∀ s, u.sex = some s →
            ¬ s.toLower = "male" ∧ ¬ s.toLower = "female")) :
    u.calculate_bmr d = none := by
  rcases h with h | ⟨hbf, _⟩
  · cases hs : u.sex with
    | none => simp [CalorieTrackerUser.calculate_bmr, hs]
    | some s =>
      cases hh : u.get_height_in_cm with
      | none => simp [CalorieTrackerUser.calculate_bmr, hs, hh]
      | some hc =>
        cases hw : u.get_weight d with
        | none => simp [CalorieTrackerUser.calculate_bmr, hs, hh, hw]
        | some w =>
          have hcond : s = "" ∨ hc = 0 ∨ w = 0 := by
            rcases h with h | h | h | h | h | h
            · rw [hs] at h; exact Option.noConfusion h
            · rw [hs] at h; exact Or.inl (Option.some.inj h)
            · rw [hh] at h; exact Option.noConfusion h
            · rw [hh] at h; exact Or.inr (Or.inl (Option.some.inj h))
            · rw [hw] at h; exact Option.noConfusion h
            · rw [hw] at h; exact Or.inr (Or.inr (Option.some.inj h))
          unfold CalorieTrackerUser.calculate_bmr
          rw [hs, hh, hw]
          dsimp only
          rw [if_pos hcond]
  · have := CalorieTrackerUser.get_body_fat_pct_isSome u d
    rw [hbf] at this
    exact absurd this (by simp)

/-- A profile with no sex recorded. -/
def uNoSex : CalorieTrackerUser := { uKg80 with sex := none }

/-- C6, witness: missing sex yields `None`. -/
theorem C6_witness :
    uNoSex.sex = none ∧ uNoSex.calculate_bmr "2024-06-05" = none :=
  ⟨rfl, C6_returns_none uNoSex "2024-06-05" (Or.inl (Or.inl rfl))⟩

/-- C7, counterexample: the unrecognized goal type "variable_x" (goal value
1.0) is not treated as a fixed daily target of 1: it starts with "variable",
so the code resolves it as a variable goal and returns 1660 on the `uVarX`
fixture. -/
theorem C7_counterexample :
    uVarX.get_goal "2024-06-05" = some ⟨"variable_x", 1, "2024-06-01"⟩ ∧
    ¬ "variable_x" ∈ (["fixed_intake", "fixed_net_calories", "fixed_deficit",
      "fixed_surplus", "variable_cut", "variable_bulk"] : List String) ∧
    uVarX.calculate_daily_goal_calories "2024-06-05" = 1660 ∧
    ¬ uVarX.calculate_daily_goal_calories "2024-06-05" = pyInt 1 := by
  refine ⟨by decide, by decide, uVarX_daily, ?_⟩
  rw [uVarX_daily]
  norm_num [pyInt]

/-- C7, amended: an unrecognized goal type that does not start with
"variable" (and is none of the four fixed types) raises nothing and is used
as a fixed daily target, with consumption counted as food − exercise;
unrecognized types starting with "variable" take the variable branch
instead. -/
theorem C7_amended_fallback (u : CalorieTrackerUser) (d : String)
    (g : GoalRes) (hg : u.get_goal d = some g)
    (h0 : ¬ g.goal_type = "") (hv : ¬ g.goal_value = 0)
    (hvar : strStartsWith g.goal_type "variable" = false)
    (h1 : ¬ g.goal_type = "fixed_intake")
    (h2 : ¬ g.goal_type = "fixed_net_calories")
    (h3 : ¬ g.goal_type = "fixed_deficit")
    (h4 : ¬ g.goal_type = "fixed_surplus") :
    u.calculate_daily_goal_calories d = pyInt g.goal_value ∧
    u.calculate_remaining_calories d =
      pyInt (g.goal_value -
        (((u.get_log d).calories.1 - (u.get_log d).calories.2 : ℤ) : ℚ)) :=
  ⟨CalorieTrackerUser.daily_goal_unknown u d g hg h0 hv hvar h1 h2 h3 h4,
   CalorieTrackerUser.remaining_unknown u d g hg h0 hv hvar h1 h2 h3 h4⟩

/-- A 500 kcal food entry logged at 2024-06-05T12:00. -/
def eToast : Entry where
  id := "f1"
  timestamp := "2024-06-05T12:00"
  food_item := some "toast"
  calories := some 500

/-- A 200 kcal exercise entry logged at 2024-06-05T08:00. -/
def eRun : Entry where
  id := "e1"
  timestamp := "2024-06-05T08:00"
  exercise_type := some "run"
  duration_minutes := some 30
  calories_burned := some 200

/-- A profile with the unrecognized goal type "maintenance" (value 1800) and
one food (500 kcal) and one exercise (200 kcal) entry on 2024-06-05. -/
def uMaint : CalorieTrackerUser :=
  { uKg80 with
    storage :=
      { stEmpty with
        goals := [("2024-06-01", ⟨"maintenance", 1800⟩)],
        food_entries := [eToast],
        exercise_entries := [eRun] } }

/-- C7, witness: "maintenance" is used as a fixed target of 1800 and the
remaining calories are `1800 − (500 − 200) = 1500`. -/
theorem C7_witness :
    uMaint.get_goal "2024-06-05" = some ⟨"maintenance", 1800, "2024-06-01"⟩ ∧
    (uMaint.get_log "2024-06-05").calories = (500, 200) ∧
    uMaint.calculate_daily_goal_calories "2024-06-05" = 1800 ∧
    uMaint.calculate_remaining_calories "2024-06-05" = 1500 := by
  have h := C7_amended_fallback uMaint "2024-06-05"
    ⟨"maintenance", 1800, "2024-06-01"⟩ (by decide) (by decide) (by norm_num)
    (by decide) (by decide) (by decide) (by decide) (by decide)
  refine ⟨by decide, by decide, ?_, ?_⟩
  · rw [h.1]
    norm_num [pyInt]
  · rw [h.2]
    rw [show (uMaint.get_log "2024-06-05").calories.1 = 500 from rfl,
      show (uMaint.get_log "2024-06-05").calories.2 = 200 from rfl]
    norm_num [pyInt]

/-- C8: setting the weight for a date and querying that date returns exactly
the set value; a repeated set for the same date overwrites the prior value;
and the date-keyed map keeps one value per date. -/
theorem C8_weight_roundtrip (u : CalorieTrackerUser) (D : String) (v v' : ℚ)
    (hD : dateOnly D = D) :
    ({ u with storage := u.storage.set_weight D v } :
        CalorieTrackerUser).get_weight D = some v ∧
    (u.storage.set_weight D v').set_weight D v = u.storage.set_weight D v ∧
    ((u.storage.weights.map Prod.fst).Nodup →
      ((u.storage.set_weight D v).weights.map Prod.fst).Nodup) := by
  refine ⟨?_, ?_, ?_⟩
  · unfold CalorieTrackerUser.get_weight CalorieStorageManager.get_weight
      CalorieStorageManager.set_weight
    rw [hD]
    dsimp only
    rw [dmGet_dmSet_self]
  · unfold CalorieStorageManager.set_weight
    simp [dmSet_dmSet]
  · intro hn
    unfold CalorieStorageManager.set_weight
    exact dmSet_keys_nodup D v hn

/-- C8, witness: the round-trip at `uKg80`, date 2024-06-07, values 81/83. -/
theorem C8_witness :
    dateOnly "2024-06-07" = "2024-06-07" ∧
    ({ uKg80 with storage := uKg80.storage.set_weight "2024-06-07" 81 } :
        CalorieTrackerUser).get_weight "2024-06-07" = some 81 ∧
    (uKg80.storage.set_weight "2024-06-07" 83).set_weight "2024-06-07" 81 =
      uKg80.storage.set_weight "2024-06-07" 81 := by
  have h := C8_weight_roundtrip uKg80 "2024-06-07" 81 83 (by decide)
  exact ⟨by decide, h.1, h.2.1⟩

/-- C9: `get_body_fat_pct` always returns a value; with no logged body-fat
entries (and the profile default still at its `__init__` value 0.0) it
returns 0.0, so `calculate_bmr` takes the Katch-McArdle tier with lean body
mass equal to the full body weight whenever sex, height and weight are
present. -/
theorem C9_default_body_fat (today spoken : String)
    (st : CalorieStorageManager) (sw gw : ℤ) (wunit : String)
    (byear : Option ℤ) (sx : Option String) (ht : Option ℤ) (hunit : String)
    (nt : ℚ) (u : CalorieTrackerUser)
    (hu : u = CalorieTrackerUser.mk_init today spoken st sw gw wunit byear
      sx ht hunit nt)
    (d : String) (hempty : st.body_fat_pcts = []) :
    (∀ d', (u.get_body_fat_pct d').isSome = true) ∧
    u.get_body_fat_pct d = some 0 ∧
    (∀ s hc w, u.sex = some s → ¬ s = "" → u.get_height_in_cm = some hc →
      ¬ hc = 0 → u.get_weight d = some w → ¬ w = 0 →
      u.calculate_bmr d = some (round1 (370 + 21.6 * u.bmrWeightKg w))) := by
  subst hu
  have hbf : (CalorieTrackerUser.mk_init today spoken st sw gw wunit byear
      sx ht hunit nt).get_body_fat_pct d = some 0 :=
    (CalorieTrackerUser.get_body_fat_pct_of_empty _ d hempty).trans rfl
  refine ⟨fun d' => CalorieTrackerUser.get_body_fat_pct_isSome _ d',
    hbf, fun s hc w hs hs0 hhc hc0 hw hw0 => ?_⟩
  rw [CalorieTrackerUser.calculate_bmr_bodyfat _ d s hs hs0 hc hhc hc0 w hw
    hw0 0 hbf]
  rw [if_neg (by norm_num)]
  norm_num

/-- The profile built by `__init__` over an empty storage. -/
def u9 : CalorieTrackerUser :=
  CalorieTrackerUser.mk_init "2024-06-01" "alex" stEmpty 80 75 "kg"
    (some 1994) (some "male") (some 180) "cm" 1.2

/-- C9, witness: over empty storage the default 0.0 applies and the BMR is
the Katch-McArdle value `370 + 21.6 × 80 = 2098.0`. -/
theorem C9_witness :
    stEmpty.body_fat_pcts = [] ∧
    u9.get_body_fat_pct "2024-06-05" = some 0 ∧
    u9.calculate_bmr "2024-06-05" = some 2098 := by
  have h := C9_default_body_fat "2024-06-01" "alex" stEmpty 80 75 "kg"
    (some 1994) (some "male") (some 180) "cm" 1.2 u9 rfl "2024-06-05" rfl
  refine ⟨rfl, h.2.1, ?_⟩
  rw [h.2.2 "male" 180 80 rfl (by decide) (by decide) (by decide) (by decide)
    (by decide)]
  rw [show u9.bmrWeightKg 80 = (80 : ℚ) from rfl]
  norm_num [round1, pyRoundInt]

theorem removeFirst_eq_none (eid : String) :
    ∀ l : List Entry, (∀ e ∈ l, ¬ e.id = eid) →
      CalorieStorageManager.removeFirst l eid = none
  | [], _ => rfl
  | e :: rest, h => by
    unfold CalorieStorageManager.removeFirst
    rw [if_neg (h e (List.mem_cons_self e rest)),
      removeFirst_eq_none eid rest (fun e' he' => h e' (List.mem_cons_of_mem e he'))]
    rfl

theorem replaceFirst_eq_none (eid : String) (ne : Entry) :
    ∀ l : List Entry, (∀ e ∈ l, ¬ e.id = eid) →
      CalorieStorageManager.replaceFirst l eid ne = none
  | [], _ => rfl
  | e :: rest, h => by
    unfold CalorieStorageManager.replaceFirst
    rw [if_neg (h e (List.mem_cons_self e rest)),
      replaceFirst_eq_none eid ne rest
        (fun e' he' => h e' (List.mem_cons_of_mem e he'))]
    rfl

/-- C10: `delete_entry` and `update_entry` return `False` and leave the
whole stored state unchanged when the entry type is invalid or no entry with
the given id exists. -/
theorem C10_invalid_noop (s : CalorieStorageManager) (et eid : String)
    (ne : Entry)
    (h : (¬ et = "food" ∧ ¬ et = "exercise") ∨
         (et = "food" ∧ ∀ e ∈ s.food_entries, ¬ e.id = eid) ∨
         (et = "exercise" ∧ ∀ e ∈ s.exercise_entries, ¬ e.id = eid)) :
    s.delete_entry et eid = (false, s) ∧
    s.update_entry et eid ne = (false, s) := by
  rcases h with ⟨h1, h2⟩ | ⟨rfl, hmem⟩ | ⟨rfl, hmem⟩
  · constructor
    · unfold CalorieStorageManager.delete_entry
      rw [if_neg h1, if_neg h2]
    · unfold CalorieStorageManager.update_entry
      rw [if_neg h1, if_neg h2]
  · constructor
    · unfold CalorieStorageManager.delete_entry
      rw [if_pos rfl, removeFirst_eq_none eid s.food_entries hmem]
    · unfold CalorieStorageManager.update_entry
      rw [if_pos rfl, replaceFirst_eq_none eid ne s.food_entries hmem]
  · constructor
    · unfold CalorieStorageManager.delete_entry
      rw [if_neg (by decide), if_pos rfl,
        removeFirst_eq_none eid s.exercise_entries hmem]
    · unfold CalorieStorageManager.update_entry
      rw [if_neg (by decide), if_pos rfl,
        replaceFirst_eq_none eid ne s.exercise_entries hmem]

/-- A replacement entry used by the C10 witness. -/
def eNew : Entry where
  id := "n1"
  timestamp := "t"
  calories := some 1

/-- A storage with a single food entry. -/
def stFood : CalorieStorageManager :=
  { stEmpty with food_entries := [eToast] }

/-- C10, witness: deleting or updating a missing id leaves `stFood`
unchanged and returns `False`; so does an invalid entry type. -/
theorem C10_witness :
    (∀ e ∈ stFood.food_entries, ¬ e.id = "zzz") ∧
    stFood.delete_entry "food" "zzz" = (false, stFood) ∧
    stFood.update_entry "food" "zzz" eNew = (false, stFood) ∧
    stFood.delete_entry "weight" "f1" = (false, stFood) := by
  have h := C10_invalid_noop stFood "food" "zzz" eNew
    (Or.inr (Or.inl ⟨rfl, by decide⟩))
  have h' := C10_invalid_noop stFood "weight" "f1" eNew
    (Or.inl (by constructor <;> decide))
  exact ⟨by decide, h.1, h.2, h'.1⟩
